import Mathlib

/-!
HLW8012 driver: measurement state machine.

Shallow embedding of `components/hlw8012/hlw8012.cpp`.

* 32-bit unsigned counters are natural numbers; every subtraction, product and
  increment that can wrap is written with an explicit `% 2^32`.
* `float` values are modelled in exact arithmetic: a value is a rational
  number, an infinity or NaN (no rounding, no signed zero). The conversion of a
  period to power is modelled a second time in single precision (`Single`), to
  show where rounding changes what is published.
* One call of `update` reads the microsecond clock several times; the
  embedding gives it one reading `now` for the whole tick, and no interrupt
  runs inside a tick.
-/

namespace HLW8012

/-! ## Floats in exact arithmetic -/

/-- Value of a C++ float, without rounding: NaN, the two infinities, or a
rational number. -/
inductive F32 where
  | nan : F32
  | pinf : F32
  | ninf : F32
  | fin (q : ℚ) : F32
deriving DecidableEq

namespace F32

/-- Result of `std::isnan`. -/
def isnan : F32 → Bool
  | nan => true
  | _ => false

/-- Result of the C++ comparison `x == 0.0f` (false for NaN). -/
def eq0 : F32 → Bool
  | fin q => decide (q = 0)
  | _ => false

/-- Result of the C++ comparison `x != 0.0f` (true for NaN). -/
def ne0 (x : F32) : Bool := !x.eq0

/-- Conversion of a 32-bit unsigned value to float. -/
def ofNat (n : Nat) : F32 := fin (n : ℚ)

/-- Infinity of the given sign (`true` is negative). -/
def signedInf (neg : Bool) : F32 := if neg then ninf else pinf

/-- Float product. -/
def mul : F32 → F32 → F32
  | nan, _ => nan
  | _, nan => nan
  | fin a, fin b => fin (a * b)
  | fin a, pinf => if a = 0 then nan else signedInf (decide (a < 0))
  | fin a, ninf => if a = 0 then nan else signedInf (decide (0 < a))
  | pinf, fin b => if b = 0 then nan else signedInf (decide (b < 0))
  | ninf, fin b => if b = 0 then nan else signedInf (decide (0 < b))
  | pinf, pinf => pinf
  | ninf, ninf => pinf
  | pinf, ninf => ninf
  | ninf, pinf => ninf

/-- Float quotient. -/
def div : F32 → F32 → F32
  | nan, _ => nan
  | _, nan => nan
  | fin a, fin b =>
      if b = 0 then (if a = 0 then nan else signedInf (decide (a < 0)))
      else fin (a / b)
  | fin _, pinf => fin 0
  | fin _, ninf => fin 0
  | pinf, fin b => signedInf (decide (b < 0))
  | ninf, fin b => signedInf (decide (0 ≤ b))
  | pinf, pinf => nan
  | pinf, ninf => nan
  | ninf, pinf => nan
  | ninf, ninf => nan

end F32

/-! ## Data model -/

/-- Chip variants (`HLW8012SensorModels`). -/
inductive SensorModel where
  | HLW8012 : SensorModel
  | CSE7759 : SensorModel
  | BL0937 : SensorModel
deriving DecidableEq

/-- Pulse capture of one input line (`cf_store_`, `cf1_store_`). -/
structure Store where
  last_rise : Nat
  last_period : Nat
  valid : Bool
deriving DecidableEq

/-- Configuration of the component, fixed before `setup`. -/
structure Config where
  sensor_model : SensorModel
  current_resistor : F32
  voltage_divider : F32
  change_mode_every : Nat
  update_interval : Nat
  initial_mode : Bool
  has_power_sensor : Bool
  has_current_sensor : Bool
  has_voltage_sensor : Bool

/-- Fields of `HLW8012Component` that `update` reads or writes. A sensor
pointer is `none` when it is `nullptr`, and `some v` when the sensor exists
and its `state` is `v`. -/
structure State where
  nth_value : Nat
  current_mode : Bool
  change_mode_at : Nat
  sel_pin : Bool
  cf_store : Store
  cf1_store : Store
  power_multiplier : F32
  current_multiplier : F32
  voltage_multiplier : F32
  power_sensor : Option F32
  current_sensor : Option F32
  voltage_sensor : Option F32
deriving DecidableEq

/-- The three sensors `update` publishes on. -/
inductive SensorId where
  | power : SensorId
  | current : SensorId
  | voltage : SensorId
deriving DecidableEq

/-- What one call of `update` did. -/
structure Tick where
  /-- the component after the call -/
  state : State
  /-- the `publish_state` calls of the tick, in order -/
  published : List (SensorId × F32)
  /-- final value of the local `dont_change_mode` -/
  dont_change_mode : Bool
  /-- whether the `change_mode()` of the missing-sensor branch ran -/
  forced_change : Bool
  /-- whether the `change_mode()` of the end-of-tick check ran -/
  scheduled_change : Bool
  /-- whether the tick returned from the warm-up skip -/
  warmup : Bool

/-! ## Arithmetic on 32-bit counters -/

/-- Difference `a - b` of two `uint32_t` values. -/
def sub32 (a b : Nat) : Nat := (a % 2 ^ 32 + (2 ^ 32 - b % 2 ^ 32)) % 2 ^ 32

/-- The value `get_update_interval()*1000`, a `uint32_t` product. -/
def interval_us (c : Config) : Nat := (c.update_interval * 1000) % 2 ^ 32

/-! ## Pulse capture -/

/-- Modelled from the spec: the rising-edge interrupt handler of a capture
(declared in `hlw8012.h`): a period is recorded once an earlier edge exists. -/
def Store.edge (st : Store) (now : Nat) : Store :=
  if st.last_rise ≠ 0 then
    { last_rise := now, last_period := sub32 now st.last_rise, valid := true }
  else
    { st with last_rise := now }

/-- Modelled from the spec: `reset()` of a capture (declared in `hlw8012.h`):
clears `valid` and the period, keeps the time of the last edge. -/
def Store.reset (st : Store) : Store :=
  { st with last_period := 0, valid := false }

/-! ## Period conversion -/

/-- `HLW8012Component::period_to_hz`. -/
def period_to_hz (period_in : F32) : F32 :=
  if period_in.eq0 then F32.fin 0
  else F32.div (F32.fin 1) (F32.div period_in (F32.fin 1000000))

/-- `HLW8012Component::period_to_power`. -/
def period_to_power (s : State) (period_in : F32) : F32 :=
  F32.mul (period_to_hz period_in) s.power_multiplier

/-- `HLW8012Component::period_to_current`. -/
def period_to_current (s : State) (period_in : F32) : F32 :=
  F32.mul (period_to_hz period_in) s.current_multiplier

/-- `HLW8012Component::period_to_voltage`. -/
def period_to_voltage (s : State) (period_in : F32) : F32 :=
  F32.mul (period_to_hz period_in) s.voltage_multiplier

/-! ## Setup -/

/-- `HLW8012_CLOCK_FREQUENCY`. -/
def HLW8012_CLOCK_FREQUENCY : Nat := 3579000

/-- Modelled from the spec: the member initialisers of `hlw8012.h`, the
component before `setup` runs: counters at zero, captures empty, every
configured sensor with state NaN. -/
def initial_state (c : Config) : State :=
  { nth_value := 0
    current_mode := c.initial_mode
    change_mode_at := 0
    sel_pin := false
    cf_store := { last_rise := 0, last_period := 0, valid := false }
    cf1_store := { last_rise := 0, last_period := 0, valid := false }
    power_multiplier := F32.fin 0
    current_multiplier := F32.fin 0
    voltage_multiplier := F32.fin 0
    power_sensor := if c.has_power_sensor then some F32.nan else none
    current_sensor := if c.has_current_sensor then some F32.nan else none
    voltage_sensor := if c.has_voltage_sensor then some F32.nan else none }

/-- `HLW8012Component::setup`: drive the selector pin and compute the
multipliers. -/
def setup (c : Config) (s : State) : State :=
  let s := { s with sel_pin := s.current_mode }
  if c.sensor_model = SensorModel.BL0937 then
    let reference_voltage := F32.fin (1218 / 1000)
    { s with
      power_multiplier :=
        F32.div (F32.div (F32.mul (F32.mul reference_voltage reference_voltage) c.voltage_divider)
          c.current_resistor) (F32.fin 1721506)
      current_multiplier :=
        F32.div (F32.div reference_voltage c.current_resistor) (F32.fin 94638)
      voltage_multiplier :=
        F32.div (F32.mul reference_voltage c.voltage_divider) (F32.fin 15397) }
  else
    let reference_voltage := F32.fin (243 / 100)
    { s with
      power_multiplier :=
        F32.div (F32.div (F32.mul (F32.div (F32.mul (F32.mul reference_voltage reference_voltage)
          c.voltage_divider) c.current_resistor) (F32.fin 64)) (F32.fin 24))
          (F32.ofNat HLW8012_CLOCK_FREQUENCY)
      current_multiplier :=
        F32.div (F32.div (F32.mul (F32.div reference_voltage c.current_resistor) (F32.fin 512))
          (F32.fin 24)) (F32.ofNat HLW8012_CLOCK_FREQUENCY)
      voltage_multiplier :=
        F32.div (F32.mul (F32.mul reference_voltage c.voltage_divider) (F32.fin 256))
          (F32.ofNat HLW8012_CLOCK_FREQUENCY) }

/-- The component right after `setup`. -/
def boot (c : Config) : State := setup c (initial_state c)

/-! ## Mode change and update -/

/-- `HLW8012Component::change_mode`. -/
def change_mode (s : State) : State :=
  { s with
    current_mode := !s.current_mode
    change_mode_at := 1
    sel_pin := !s.current_mode
    cf1_store := s.cf1_store.reset }

/-- Power block of `update` (source lines 76-99). -/
def power_block (c : Config) (s : State) (now : Nat) : State × List (SensorId × F32) :=
  match s.power_sensor with
  | none => (s, [])
  | some st =>
    let t := sub32 now s.cf_store.last_rise
    let v :=
      if t > 10000000 ∨ st.isnan = true then F32.fin 0
      else if t > interval_us c ∧ t > s.cf_store.last_period ∧ st.ne0 = true then
        period_to_power s (F32.ofNat t)
      else period_to_power s (F32.ofNat s.cf_store.last_period)
    ({ s with power_sensor := some v }, [(SensorId.power, v)])

/-- Current block of `update` (source lines 104-132), entered with the state
`st` of the current sensor. Returns the component, the publications and
`dont_change_mode`. -/
def current_block (c : Config) (s : State) (now : Nat) (st : F32) :
    State × List (SensorId × F32) × Bool :=
  let t := sub32 now s.cf1_store.last_rise
  if s.cf1_store.valid = false then
    if t > 10000000 ∨ st.isnan = true then
      ({ s with current_sensor := some (F32.fin 0) }, [(SensorId.current, F32.fin 0)], false)
    else if t > interval_us c ∧ t > s.cf1_store.last_period ∧ st.ne0 = true then
      let v := period_to_current s (F32.ofNat t)
      ({ s with current_sensor := some v }, [(SensorId.current, v)], true)
    else (s, [], true)
  else
    let v := period_to_current s (F32.ofNat s.cf1_store.last_period)
    ({ s with current_sensor := some v }, [(SensorId.current, v)], false)

/-- Voltage block of `update` (source lines 134-162), entered with the state
`st` of the voltage sensor. -/
def voltage_block (c : Config) (s : State) (now : Nat) (st : F32) :
    State × List (SensorId × F32) × Bool :=
  let t := sub32 now s.cf1_store.last_rise
  if s.cf1_store.valid = false then
    if t > 10000000 ∨ st.isnan = true then
      ({ s with voltage_sensor := some (F32.fin 0) }, [(SensorId.voltage, F32.fin 0)], false)
    else if t > interval_us c ∧ t > s.cf1_store.last_period ∧ st.ne0 = true then
      let v := period_to_voltage s (F32.ofNat t)
      ({ s with voltage_sensor := some v }, [(SensorId.voltage, v)], true)
    else (s, [], true)
  else
    let v := period_to_voltage s (F32.ofNat s.cf1_store.last_period)
    ({ s with voltage_sensor := some v }, [(SensorId.voltage, v)], false)

/-- The three-way choice of `update` after the power block (source lines
101-167). Returns the component, the publications, `dont_change_mode` and
whether the missing-sensor branch ran. -/
def cf1_block (c : Config) (s : State) (now : Nat) :
    State × List (SensorId × F32) × Bool × Bool :=
  match s.current_sensor, s.current_mode, s.voltage_sensor with
  | some st, true, _ =>
    let r := current_block c s now st
    (r.1, r.2.1, r.2.2, false)
  | _, false, some st =>
    let r := voltage_block c s now st
    (r.1, r.2.1, r.2.2, false)
  | _, _, _ => (change_mode s, [], true, true)

/-- `HLW8012Component::update`, called with the clock reading `now`. -/
def update (c : Config) (s : State) (now : Nat) : Tick :=
  if s.nth_value < 2 then
    { state := { s with nth_value := s.nth_value + 1 }
      published := []
      dont_change_mode := false
      forced_change := false
      scheduled_change := false
      warmup := true }
  else
    let p := power_block c s now
    let r := cf1_block c p.1 now
    let s2 := r.1
    let dont_change_mode := r.2.2.1
    -- `change_mode_at_++ >= change_mode_every_`: the old value is compared
    let fire := decide (s2.change_mode_at ≥ c.change_mode_every) && !dont_change_mode
    let s3 := { s2 with change_mode_at := (s2.change_mode_at + 1) % 2 ^ 32 }
    { state := if fire then change_mode s3 else s3
      published := p.2 ++ r.2.1
      dont_change_mode := dont_change_mode
      forced_change := r.2.2.2
      scheduled_change := fire
      warmup := false }

/-! ## Runs -/

/-- What can happen to the component between setup and now. -/
inductive Event where
  | tick (now : Nat) : Event
  | cf_edge (now : Nat) : Event
  | cf1_edge (now : Nat) : Event
deriving DecidableEq

/-- One event applied to the component. -/
def step (c : Config) (s : State) : Event → State
  | Event.tick now => (update c s now).state
  | Event.cf_edge now => { s with cf_store := s.cf_store.edge now }
  | Event.cf1_edge now => { s with cf1_store := s.cf1_store.edge now }

/-- A sequence of events applied in order. -/
def run (c : Config) (s : State) : List Event → State
  | [] => s
  | e :: es => run c (step c s e) es

/-- Number of update ticks in a sequence of events. -/
def ticks : List Event → Nat
  | [] => 0
  | Event.tick _ :: es => ticks es + 1
  | _ :: es => ticks es

/-- Number of update ticks of the run that end with `dont_change_mode` set. -/
def deferred (c : Config) (s : State) : List Event → Nat
  | [] => 0
  | Event.tick now :: es =>
    (if (update c s now).dont_change_mode then 1 else 0)
      + deferred c (step c s (Event.tick now)) es
  | e :: es => deferred c (step c s e) es

/-- The values of a list of publications that go to one sensor. -/
def on_sensor (id : SensorId) (l : List (SensorId × F32)) : List F32 :=
  (l.filter (fun p => decide (p.1 = id))).map (fun p => p.2)

/-! ## Sample configurations and states -/

/-- The configuration of the scenarios: HLW8012, 1 mΩ shunt, divider 2351,
a mode change every 8 ticks, one tick per second, all sensors present,
starting in voltage mode. -/
def demo_config : Config :=
  { sensor_model := SensorModel.HLW8012
    current_resistor := F32.fin (1 / 1000)
    voltage_divider := F32.fin 2351
    change_mode_every := 8
    update_interval := 1000
    initial_mode := false
    has_power_sensor := true
    has_current_sensor := true
    has_voltage_sensor := true }

/-- A component past warm-up in current mode with unit multipliers: CF
period 500 ms, last CF edge at 1 s, CF1 period 200 µs and valid, power last
published as 5. -/
def demo_state : State :=
  { nth_value := 2
    current_mode := true
    change_mode_at := 1
    sel_pin := true
    cf_store := { last_rise := 1000000, last_period := 500000, valid := true }
    cf1_store := { last_rise := 1000000, last_period := 200, valid := true }
    power_multiplier := F32.fin 1
    current_multiplier := F32.fin 1
    voltage_multiplier := F32.fin 1
    power_sensor := some (F32.fin 5)
    current_sensor := some (F32.fin 3)
    voltage_sensor := some (F32.fin 230) }

/-- The sample configuration starting in current mode. -/
def current_first_config : Config := { demo_config with initial_mode := true }

/-- The component after setup in current mode, two CF1 edges 200 µs apart and
the two warm-up ticks. -/
def fresh_valid_state : State :=
  run current_first_config (boot current_first_config)
    [Event.cf1_edge 100, Event.cf1_edge 300, Event.tick 1000000, Event.tick 2000000]

/-- The sample state with the CF1 capture reset, as after a mode change. -/
def stale_state : State := { demo_state with cf1_store := demo_state.cf1_store.reset }

/-- The sample state before the first power publication. -/
def unpublished_state : State := { demo_state with power_sensor := some F32.nan }

/-- State of the sensor that `current_mode` selects, `none` when it is not
configured. -/
def active_sensor (s : State) : Option F32 :=
  if s.current_mode then s.current_sensor else s.voltage_sensor

/-- Name of the sensor that `current_mode` selects. -/
def active_id (s : State) : SensorId :=
  if s.current_mode then SensorId.current else SensorId.voltage

/-- Eighteen update ticks one second apart, the first one second after
setup, with no edge on either line. -/
def idle_ticks : List Event :=
  (List.range 18).map (fun i => Event.tick ((i + 1) * 1000000))

/-- The component after setup in current mode and eighteen silent seconds: it
has flipped to voltage mode at the eleventh tick. -/
def idle_state : State := run current_first_config (boot current_first_config) idle_ticks

/-- The sample state right after a change to current mode. -/
def flipped_state : State := change_mode { demo_state with current_mode := false }

/-- One CF1 edge 200 µs after the previous one, then eight update ticks one
second apart. -/
def edge_then_eight_ticks : List Event :=
  Event.cf1_edge 1000200 :: (List.range 8).map (fun i => Event.tick ((i + 2) * 1000000))

/-- The component after the change to current mode, one CF1 edge and six of
the eight ticks. -/
def seventh_tick_state : State :=
  run demo_config flipped_state (edge_then_eight_ticks.take 7)

/-- The sample state in current mode without a current sensor. -/
def no_current_sensor_state : State := { demo_state with current_sensor := none }

/-- The sample configuration with two update ticks per second. -/
def fast_config : Config := { demo_config with update_interval := 500 }

/-- Twenty update ticks half a second apart, with no edge on either line. -/
def fast_idle_ticks : List Event :=
  (List.range 20).map (fun i => Event.tick ((i + 1) * 500000))

/-- The component right after the scheduled change that ends the eight ticks
in current mode: voltage mode, counter 1, CF1 capture reset. -/
def after_flip_state : State := run demo_config flipped_state edge_then_eight_ticks

/-- The sample configuration with a shunt value of zero. -/
def shorted_config : Config := { demo_config with current_resistor := F32.fin 0 }

/-- The component as it would be had the microsecond counter started `k`
later: the last-rise timestamps of both captures moved by `k` modulo 2^32. -/
def shift_clock (k : Nat) (s : State) : State :=
  { s with
    cf_store := { s.cf_store with last_rise := (s.cf_store.last_rise + k) % 2 ^ 32 }
    cf1_store := { s.cf1_store with last_rise := (s.cf1_store.last_rise + k) % 2 ^ 32 } }

/-- Conversion for the sensor that `current_mode` selects: `period_to_current`
in current mode, `period_to_voltage` in voltage mode. -/
def period_to_active (s : State) (p : F32) : F32 :=
  if s.current_mode then period_to_current s p else period_to_voltage s p

/-- The component after setup, two CF edges 500 ms apart, the two warm-up
ticks and the first publishing tick: power has been published as 0 because
the sensor held NaN. -/
def first_zero_state : State :=
  run demo_config (boot demo_config)
    [Event.cf_edge 100000, Event.cf_edge 600000, Event.tick 1000000, Event.tick 2000000,
      Event.tick 3000000]

/-- State of the sensor with the given name, `none` when it is not
configured. -/
def sensor_of (s : State) : SensorId → Option F32
  | SensorId.power => s.power_sensor
  | SensorId.current => s.current_sensor
  | SensorId.voltage => s.voltage_sensor

/-- The sample configuration with an update interval of 4 294 968 ms, whose
product with 1000 exceeds 2^32. -/
def long_interval_config : Config := { demo_config with update_interval := 4294968 }

/-- The sample state with power already published as 0. -/
def zero_power_state : State := { demo_state with power_sensor := some (F32.fin 0) }

/-- Length of the run of deferring update ticks that ends a sequence of
events, starting from a run of length `k`: a tick that ends with
`dont_change_mode` set makes the run one longer, any other tick ends it. -/
def streak_from (c : Config) (s : State) (k : Nat) : List Event → Nat
  | [] => k
  | Event.tick now :: es =>
    streak_from c (step c s (Event.tick now))
      (if (update c s now).dont_change_mode then k + 1 else 0) es
  | e :: es => streak_from c (step c s e) k es

/-- Number of update ticks at the end of the sequence that deferred the mode
change one after the other. -/
def streak (c : Config) (s : State) (es : List Event) : Nat := streak_from c s 0 es

/-! ## Single precision -/

/-- A non-negative binary32 value `man · 2^exp`: zero when `man = 0`,
otherwise normalised with `2^23 ≤ man < 2^24`. -/
structure Single where
  man : Nat
  exp : Int
deriving DecidableEq

/-- Nearest integer to `n / d`, ties to even. -/
def round_half_even (n d : Nat) : Nat :=
  if 2 * (n % d) < d then n / d
  else if d < 2 * (n % d) then n / d + 1
  else if (n / d) % 2 = 0 then n / d
  else n / d + 1

/-- Integer part of the binary logarithm of `n`, by halving at most `fuel`
times (0 for `n < 2`). -/
def ilog2 : Nat → Nat → Nat
  | 0, _ => 0
  | fuel + 1, n => if n < 2 then 0 else ilog2 fuel (n / 2) + 1

/-- Binary32 rounding (to nearest, ties to even) of the non-negative number
`n / d · 2^k`; `none` when `d = 0` or the result is outside the normal
range. -/
def Single.round (n d : Nat) (k : Int) : Option Single :=
  if d = 0 then none
  else if n = 0 then some ⟨0, 0⟩
  else
    let l : Int := (ilog2 n n : Int) - (ilog2 d d : Int)
    -- the integer part of the binary logarithm of n / d is l or l - 1
    let fl : Int := if d * 2 ^ l.toNat ≤ n * 2 ^ (-l).toNat then l else l - 1
    let e : Int := fl - 23
    let m := round_half_even (n * 2 ^ (-e).toNat) (d * 2 ^ e.toNat)
    let r : Single := if m = 2 ^ 24 then ⟨2 ^ 23, e + 1 + k⟩ else ⟨m, e + k⟩
    if -149 ≤ r.exp ∧ r.exp ≤ 104 then some r else none

/-- Conversion of a 32-bit unsigned value to single precision. -/
def Single.ofNat (n : Nat) : Option Single := Single.round n 1 0

/-- The float literal with decimal value `n / d`. -/
def Single.lit (n d : Nat) : Option Single := Single.round n d 0

/-- Single-precision product. -/
def Single.mul (a b : Single) : Option Single :=
  Single.round (a.man * b.man) 1 (a.exp + b.exp)

/-- Single-precision quotient; `none` for a zero divisor. -/
def Single.div (a b : Single) : Option Single :=
  if b.man = 0 then none else Single.round a.man b.man (a.exp - b.exp)

theorem F32.isnan_iff (x : F32) : x.isnan = true ↔ x = F32.nan := by
  cases x <;> simp [F32.isnan]

theorem F32.ne0_iff (x : F32) : x.ne0 = true ↔ x ≠ F32.fin 0 := by
  cases x <;> simp [F32.ne0, F32.eq0]

/-! ## Lemmas on the blocks of `update` -/

theorem power_block_some (c : Config) (s : State) (now : Nat) (S : F32)
    (hp : s.power_sensor = some S) :
    power_block c s now =
      ({ s with power_sensor := some (if sub32 now s.cf_store.last_rise > 10000000 ∨ S = F32.nan then F32.fin 0
           else if sub32 now s.cf_store.last_rise > interval_us c ∧
               sub32 now s.cf_store.last_rise > s.cf_store.last_period ∧ S ≠ F32.fin 0 then
             period_to_power s (F32.ofNat (sub32 now s.cf_store.last_rise))
           else period_to_power s (F32.ofNat s.cf_store.last_period)) },
       [(SensorId.power,
          (if sub32 now s.cf_store.last_rise > 10000000 ∨ S = F32.nan then F32.fin 0
           else if sub32 now s.cf_store.last_rise > interval_us c ∧
               sub32 now s.cf_store.last_rise > s.cf_store.last_period ∧ S ≠ F32.fin 0 then
             period_to_power s (F32.ofNat (sub32 now s.cf_store.last_rise))
           else period_to_power s (F32.ofNat s.cf_store.last_period)))]) := by
  simp only [power_block, hp, F32.isnan_iff, F32.ne0_iff]

theorem power_block_none (c : Config) (s : State) (now : Nat)
    (hp : s.power_sensor = none) : power_block c s now = (s, []) := by
  simp only [power_block, hp]

theorem on_sensor_append (id : SensorId) (l m : List (SensorId × F32)) :
    on_sensor id (l ++ m) = on_sensor id l ++ on_sensor id m := by
  simp [on_sensor]

theorem current_block_power (c : Config) (s : State) (now : Nat) (st : F32) :
    on_sensor SensorId.power (current_block c s now st).2.1 = [] := by
  unfold current_block
  simp only
  split_ifs <;> simp [on_sensor]

theorem voltage_block_power (c : Config) (s : State) (now : Nat) (st : F32) :
    on_sensor SensorId.power (voltage_block c s now st).2.1 = [] := by
  unfold voltage_block
  simp only
  split_ifs <;> simp [on_sensor]

theorem cf1_block_power (c : Config) (s : State) (now : Nat) :
    on_sensor SensorId.power (cf1_block c s now).2.1 = [] := by
  unfold cf1_block
  split
  · exact current_block_power c s now _
  · exact voltage_block_power c s now _
  · simp [on_sensor]

theorem update_past_warmup (c : Config) (s : State) (now : Nat) (hwarm : 2 ≤ s.nth_value) :
    update c s now =
      { state :=
          if (decide ((cf1_block c (power_block c s now).1 now).1.change_mode_at
                ≥ c.change_mode_every) && !(cf1_block c (power_block c s now).1 now).2.2.1) = true
          then change_mode { (cf1_block c (power_block c s now).1 now).1 with
            change_mode_at :=
              ((cf1_block c (power_block c s now).1 now).1.change_mode_at + 1) % 2 ^ 32 }
          else { (cf1_block c (power_block c s now).1 now).1 with
            change_mode_at :=
              ((cf1_block c (power_block c s now).1 now).1.change_mode_at + 1) % 2 ^ 32 }
        published := (power_block c s now).2 ++ (cf1_block c (power_block c s now).1 now).2.1
        dont_change_mode := (cf1_block c (power_block c s now).1 now).2.2.1
        forced_change := (cf1_block c (power_block c s now).1 now).2.2.2
        scheduled_change :=
          decide ((cf1_block c (power_block c s now).1 now).1.change_mode_at
            ≥ c.change_mode_every) && !(cf1_block c (power_block c s now).1 now).2.2.1
        warmup := false } := by
  have h : ¬ s.nth_value < 2 := by omega
  simp only [update, h, if_false]

/-! ## Power line -/

theorem power_published (c : Config) (s : State) (now : Nat) (S : F32)
    (hwarm : 2 ≤ s.nth_value) (hp : s.power_sensor = some S) :
    on_sensor SensorId.power (update c s now).published =
      [if sub32 now s.cf_store.last_rise > 10000000 ∨ S = F32.nan then F32.fin 0
       else if sub32 now s.cf_store.last_rise > interval_us c ∧
           sub32 now s.cf_store.last_rise > s.cf_store.last_period ∧ S ≠ F32.fin 0 then
         period_to_power s (F32.ofNat (sub32 now s.cf_store.last_rise))
       else period_to_power s (F32.ofNat s.cf_store.last_period)] := by
  rw [update_past_warmup c s now hwarm]
  simp only [on_sensor_append, cf1_block_power, List.append_nil]
  rw [power_block_some c s now S hp]
  simp [on_sensor]

/-- C1, amended: on a tick past warm-up with a power sensor whose last state
is `S`, `update` publishes exactly one power value: 0 when `t > 10 000 000` or
`S` is NaN, else the conversion of `t` when `t > U`, `t > T` and `S ≠ 0`, else
the conversion of `T`; here `t` is the 32-bit difference of `now` and the CF
last rise, `T` the CF last period and `U` is `update_interval*1000` reduced
modulo 2^32, the 32-bit product the code computes. -/
theorem update_power_decision (c : Config) (s : State) (now : Nat) (S : F32)
    (hwarm : 2 ≤ s.nth_value) (hp : s.power_sensor = some S) :
    on_sensor SensorId.power (update c s now).published =
      [if sub32 now s.cf_store.last_rise > 10000000 ∨ S = F32.nan then F32.fin 0
       else if sub32 now s.cf_store.last_rise > (c.update_interval * 1000) % 2 ^ 32 ∧
           sub32 now s.cf_store.last_rise > s.cf_store.last_period ∧ S ≠ F32.fin 0 then
         period_to_power s (F32.ofNat (sub32 now s.cf_store.last_rise))
       else period_to_power s (F32.ofNat s.cf_store.last_period)] := by
  have h := power_published c s now S hwarm hp
  rw [interval_us] at h
  exact h

theorem power_block_frame (c : Config) (s : State) (now : Nat) :
    (power_block c s now).1 = { s with power_sensor := (power_block c s now).1.power_sensor } := by
  unfold power_block
  split <;> rfl

theorem cf1_block_frame (c : Config) (s : State) (now : Nat) (ps : Option F32) :
    cf1_block c { s with power_sensor := ps } now =
      ({ (cf1_block c s now).1 with power_sensor := ps }, (cf1_block c s now).2) := by
  rcases s with ⟨nv, cm, cma, sp, cf, cf1, pm, cum, vm, psn, cs, vs⟩
  cases cs <;> cases cm <;> cases vs <;>
    simp only [cf1_block, current_block, voltage_block, period_to_current,
      period_to_voltage, change_mode] <;>
    (try split_ifs) <;> rfl

theorem cf1_block_current (c : Config) (s : State) (now : Nat) (S : F32)
    (hm : s.current_mode = true) (hs : s.current_sensor = some S) :
    cf1_block c s now =
      ((current_block c s now S).1, (current_block c s now S).2.1,
        (current_block c s now S).2.2, false) := by
  simp only [cf1_block, hm, hs]

theorem cf1_block_voltage (c : Config) (s : State) (now : Nat) (S : F32)
    (hm : s.current_mode = false) (hs : s.voltage_sensor = some S) :
    cf1_block c s now =
      ((voltage_block c s now S).1, (voltage_block c s now S).2.1,
        (voltage_block c s now S).2.2, false) := by
  cases hcs : s.current_sensor <;> simp only [cf1_block, hm, hs, hcs]

theorem cf1_block_missing (c : Config) (s : State) (now : Nat)
    (h : (s.current_sensor = none ∧ s.current_mode = true) ∨
      (s.voltage_sensor = none ∧ s.current_mode = false)) :
    cf1_block c s now = (change_mode s, [], true, true) := by
  rcases h with ⟨h1, h2⟩ | ⟨h1, h2⟩
  · cases hvs : s.voltage_sensor <;> simp only [cf1_block, h1, h2, hvs]
  · cases hcs : s.current_sensor <;> simp only [cf1_block, h1, h2, hcs]

/-- The tick past warm-up, written over the CF1 choice made on the state at
the start of the tick. -/
theorem update_fields (c : Config) (s : State) (now : Nat) (hwarm : 2 ≤ s.nth_value) :
    (update c s now).published = (power_block c s now).2 ++ (cf1_block c s now).2.1 ∧
    (update c s now).dont_change_mode = (cf1_block c s now).2.2.1 ∧
    (update c s now).forced_change = (cf1_block c s now).2.2.2 ∧
    (update c s now).scheduled_change =
      (decide ((cf1_block c s now).1.change_mode_at ≥ c.change_mode_every) &&
        !(cf1_block c s now).2.2.1) ∧
    (update c s now).warmup = false ∧
    (update c s now).state.current_mode =
      (if (update c s now).scheduled_change = true then !(cf1_block c s now).1.current_mode
       else (cf1_block c s now).1.current_mode) ∧
    (update c s now).state.change_mode_at =
      (if (update c s now).scheduled_change = true then 1
       else ((cf1_block c s now).1.change_mode_at + 1) % 2 ^ 32) := by
  rw [update_past_warmup c s now hwarm, power_block_frame c s now, cf1_block_frame]
  simp only [change_mode]
  refine ⟨trivial, trivial, trivial, trivial, trivial, ?_, ?_⟩ <;> split_ifs <;> rfl

/-- Witness of `update_power_decision` on the sample state, two seconds after
the last CF edge. -/
theorem update_power_decision_witness :
    on_sensor SensorId.power (update demo_config demo_state 3000000).published =
      [if sub32 3000000 demo_state.cf_store.last_rise > 10000000 ∨ F32.fin 5 = F32.nan then
         F32.fin 0
       else if sub32 3000000 demo_state.cf_store.last_rise
             > (demo_config.update_interval * 1000) % 2 ^ 32 ∧
           sub32 3000000 demo_state.cf_store.last_rise > demo_state.cf_store.last_period ∧
           F32.fin 5 ≠ F32.fin 0 then
         period_to_power demo_state (F32.ofNat (sub32 3000000 demo_state.cf_store.last_rise))
       else period_to_power demo_state (F32.ofNat demo_state.cf_store.last_period)] :=
  update_power_decision demo_config demo_state 3000000 (F32.fin 5) (by decide) rfl

/-- C1, as stated, fails when `update_interval*1000` does not fit in 32 bits:
with `update_interval = 4 294 968` the product is 4 294 968 000 but the code's
`U` is 704; two seconds after the last CF edge, with period 500 ms and last
power value 5, the code fades down and publishes the conversion of `t`, 1/2,
where the decision tree with `U = update_interval*1000` gives the conversion of
`T`, 2. -/
theorem power_decision_counterexample :
    2 ≤ demo_state.nth_value ∧ demo_state.power_sensor = some (F32.fin 5) ∧
      long_interval_config.update_interval * 1000 = 4294968000 ∧
      interval_us long_interval_config = 704 ∧
      sub32 3000000 demo_state.cf_store.last_rise = 2000000 ∧
      on_sensor SensorId.power (update long_interval_config demo_state 3000000).published
        = [F32.fin (1 / 2)] ∧
      (if sub32 3000000 demo_state.cf_store.last_rise > 10000000 ∨ F32.fin 5 = F32.nan then
         F32.fin 0
       else if sub32 3000000 demo_state.cf_store.last_rise
             > long_interval_config.update_interval * 1000 ∧
           sub32 3000000 demo_state.cf_store.last_rise > demo_state.cf_store.last_period ∧
           F32.fin 5 ≠ F32.fin 0 then
         period_to_power demo_state (F32.ofNat (sub32 3000000 demo_state.cf_store.last_rise))
       else period_to_power demo_state (F32.ofNat demo_state.cf_store.last_period))
        = F32.fin 2 ∧
      F32.fin (1 / 2) ≠ F32.fin 2 := by
  refine ⟨by decide, rfl, by decide, by decide, by decide, ?_, ?_, ?_⟩
  · simp [demo_state, update, long_interval_config, demo_config, power_block, cf1_block,
      current_block, sub32, interval_us, F32.isnan, F32.ne0, F32.eq0, period_to_power,
      period_to_current, period_to_hz, F32.mul, F32.div, F32.ofNat, on_sensor]
    norm_num
  · simp [demo_state, long_interval_config, demo_config, sub32, F32.eq0, period_to_power,
      period_to_hz, F32.mul, F32.div, F32.ofNat]
    norm_num
  · intro h
    injection h with h
    norm_num at h

/-! ## Zero clause on the CF1 line -/

/-- C2, as stated, fails: after two CF1 edges 200 µs apart and the two warm-up
ticks, in current mode, the current sensor still holds NaN but the capture is
valid, and the tick publishes the conversion of the period, 86400/1193, not 0. -/
theorem cf1_zero_clause_counterexample :
    2 ≤ fresh_valid_state.nth_value ∧ fresh_valid_state.current_mode = true ∧
      fresh_valid_state.current_sensor = some F32.nan ∧
      fresh_valid_state.cf1_store.valid = true ∧
      on_sensor SensorId.current (update current_first_config fresh_valid_state 3000000).published
        = [F32.fin (86400 / 1193)] ∧
      on_sensor SensorId.current (update current_first_config fresh_valid_state 3000000).published
        ≠ [F32.fin 0] := by
  refine ⟨by decide, by decide, by decide, by decide, ?_, ?_⟩ <;>
  simp [fresh_valid_state, current_first_config, run, step, update, boot, setup, initial_state,
    demo_config, power_block, cf1_block,
    current_block, Store.edge, sub32, interval_us, F32.isnan, F32.ne0, F32.eq0, period_to_power,
    period_to_current, period_to_hz, F32.mul, F32.div, F32.ofNat, on_sensor,
    HLW8012_CLOCK_FREQUENCY]
  all_goals norm_num

theorem current_block_zero (c : Config) (s : State) (now : Nat) (S : F32)
    (hv : s.cf1_store.valid = false)
    (hz : sub32 now s.cf1_store.last_rise > 10000000 ∨ S = F32.nan) :
    current_block c s now S =
      ({ s with current_sensor := some (F32.fin 0) }, [(SensorId.current, F32.fin 0)], false) := by
  rw [← F32.isnan_iff] at hz
  simp only [current_block, hv, hz, if_true]

theorem voltage_block_zero (c : Config) (s : State) (now : Nat) (S : F32)
    (hv : s.cf1_store.valid = false)
    (hz : sub32 now s.cf1_store.last_rise > 10000000 ∨ S = F32.nan) :
    voltage_block c s now S =
      ({ s with voltage_sensor := some (F32.fin 0) }, [(SensorId.voltage, F32.fin 0)], false) := by
  rw [← F32.isnan_iff] at hz
  simp only [voltage_block, hv, hz, if_true]

theorem power_block_other (c : Config) (s : State) (now : Nat) :
    on_sensor SensorId.current (power_block c s now).2 = [] ∧
    on_sensor SensorId.voltage (power_block c s now).2 = [] := by
  unfold power_block
  split <;> simp [on_sensor]

/-- C2, amended: on a tick past warm-up on which the sensor selected by
`current_mode` is configured with last state `S` and the CF1 capture is not
valid, if `t > 10 000 000` or `S` is NaN then `update` publishes exactly 0 on
that sensor. -/
theorem update_cf1_zero_when_not_valid (c : Config) (s : State) (now : Nat) (S : F32)
    (hwarm : 2 ≤ s.nth_value) (hs : active_sensor s = some S)
    (hv : s.cf1_store.valid = false)
    (hz : sub32 now s.cf1_store.last_rise > 10000000 ∨ S = F32.nan) :
    on_sensor (active_id s) (update c s now).published = [F32.fin 0] := by
  have hu := (update_fields c s now hwarm).1
  have hpo := power_block_other c s now
  cases hm : s.current_mode
  · have hs2 : s.voltage_sensor = some S := by simpa [active_sensor, hm] using hs
    have hid : active_id s = SensorId.voltage := by simp [active_id, hm]
    rw [hid, hu, on_sensor_append, hpo.2, cf1_block_voltage c s now S hm hs2,
      voltage_block_zero c s now S hv hz]
    simp [on_sensor]
  · have hs2 : s.current_sensor = some S := by simpa [active_sensor, hm] using hs
    have hid : active_id s = SensorId.current := by simp [active_id, hm]
    rw [hid, hu, on_sensor_append, hpo.1, cf1_block_current c s now S hm hs2,
      current_block_zero c s now S hv hz]
    simp [on_sensor]

/-- Witness of `update_cf1_zero_when_not_valid`: the reset capture, eleven
seconds after the last CF1 edge. -/
theorem update_cf1_zero_when_not_valid_witness :
    on_sensor (active_id stale_state) (update demo_config stale_state 12000000).published
      = [F32.fin 0] :=
  update_cf1_zero_when_not_valid demo_config stale_state 12000000 (F32.fin 3)
    (by decide) rfl rfl (Or.inl (by decide))

/-! ## Silence and steady state on the power line -/

/-- C3, as stated, fails in two ways. At `t = 10 000 000` exactly, with the
last power value 5, period 500 ms and one tick per second, the tick publishes
the fade-down value 1/10, not 0. And after `2^32 + 5 000 000` µs of silence,
with power already at 0, the clock reads 6 000 000, the 32-bit difference is
5 000 000 and the tick publishes the conversion of the stale period, 2. -/
theorem power_silence_counterexample :
    2 ≤ demo_state.nth_value ∧ demo_state.power_sensor = some (F32.fin 5) ∧
      sub32 11000000 demo_state.cf_store.last_rise = 10000000 ∧
      on_sensor SensorId.power (update demo_config demo_state 11000000).published
        = [F32.fin (1 / 10)] ∧
      on_sensor SensorId.power (update demo_config demo_state 11000000).published
        ≠ [F32.fin 0] ∧
      2 ≤ zero_power_state.nth_value ∧ zero_power_state.power_sensor = some (F32.fin 0) ∧
      (zero_power_state.cf_store.last_rise + (2 ^ 32 + 5000000)) % 2 ^ 32 = 6000000 ∧
      sub32 6000000 zero_power_state.cf_store.last_rise = 5000000 ∧
      on_sensor SensorId.power (update demo_config zero_power_state 6000000).published
        = [F32.fin 2] ∧
      on_sensor SensorId.power (update demo_config zero_power_state 6000000).published
        ≠ [F32.fin 0] := by
  refine ⟨by decide, rfl, by decide, ?_, ?_, by decide, rfl, by decide, by decide, ?_, ?_⟩ <;>
  simp [zero_power_state, demo_state, update, demo_config, power_block, cf1_block,
    current_block, sub32, interval_us, F32.isnan, F32.ne0, F32.eq0, period_to_power,
    period_to_current, period_to_hz, F32.mul, F32.div, F32.ofNat, on_sensor]
  all_goals norm_num

/-- C3, amended: on a tick past warm-up with a power sensor configured, if
`t`, the 32-bit difference of `now` and the CF last rise, is greater than
10 000 000, the power value published on that tick is exactly 0; in particular
this is so whenever the time `d` elapsed since the last CF rising edge is more
than 10 000 000 and less than 2^32 microseconds. -/
theorem update_power_silence (c : Config) (s : State) (now : Nat) (S : F32)
    (hwarm : 2 ≤ s.nth_value) (hp : s.power_sensor = some S) :
    (sub32 now s.cf_store.last_rise > 10000000 →
      on_sensor SensorId.power (update c s now).published = [F32.fin 0]) ∧
    (∀ d : Nat, 10000000 < d → d < 2 ^ 32 →
      now % 2 ^ 32 = (s.cf_store.last_rise + d) % 2 ^ 32 →
      on_sensor SensorId.power (update c s now).published = [F32.fin 0]) := by
  have key : sub32 now s.cf_store.last_rise > 10000000 →
      on_sensor SensorId.power (update c s now).published = [F32.fin 0] := by
    intro ht
    rw [power_published c s now S hwarm hp, if_pos (Or.inl ht)]
  refine ⟨key, ?_⟩
  intro d hd hd32 hnow
  apply key
  have : sub32 now s.cf_store.last_rise = d := by
    simp only [sub32]
    omega
  omega

/-- Witness of `update_power_silence`: eleven seconds after the last CF edge. -/
theorem update_power_silence_witness :
    sub32 12000000 demo_state.cf_store.last_rise > 10000000 ∧
    12000000 % 2 ^ 32 = (demo_state.cf_store.last_rise + 11000000) % 2 ^ 32 ∧
    on_sensor SensorId.power (update demo_config demo_state 12000000).published
      = [F32.fin 0] ∧
    on_sensor SensorId.power (update demo_config demo_state 12000000).published
      = [F32.fin 0] :=
  have h := update_power_silence demo_config demo_state 12000000 (F32.fin 5) (by decide) rfl
  ⟨by decide, by decide, h.1 (by decide),
    h.2 11000000 (by decide) (by decide) (by decide)⟩

theorem period_to_hz_pos (T : Nat) (hT : 0 < T) :
    period_to_hz (F32.ofNat T) = F32.fin (1000000 / (T : ℚ)) := by
  have h : (T : ℚ) ≠ 0 := by exact_mod_cast Nat.ne_of_gt hT
  simp [period_to_hz, F32.ofNat, F32.eq0, F32.div, h]

/-- C4, as stated, fails on the first tick past warm-up: with `t = 100 ms`,
`T = 500 ms`, `U = 1 s` and the power sensor still at NaN, the tick publishes
0, not `1e6 / T * power_multiplier = 2`. -/
theorem power_steady_counterexample :
    2 ≤ unpublished_state.nth_value ∧ unpublished_state.power_sensor = some F32.nan ∧
      0 < unpublished_state.cf_store.last_period ∧
      sub32 1100000 unpublished_state.cf_store.last_rise ≤ unpublished_state.cf_store.last_period ∧
      unpublished_state.cf_store.last_period ≤ interval_us demo_config ∧
      on_sensor SensorId.power (update demo_config unpublished_state 1100000).published
        = [F32.fin 0] ∧
      period_to_power unpublished_state (F32.ofNat unpublished_state.cf_store.last_period)
        = F32.fin 2 := by
  refine ⟨by decide, rfl, by decide, by decide, by decide, ?_, ?_⟩ <;>
  simp [unpublished_state, demo_state, update, demo_config, power_block, cf1_block,
    current_block, sub32, interval_us, F32.isnan, F32.ne0, F32.eq0, period_to_power,
    period_to_current, period_to_hz, F32.mul, F32.div, F32.ofNat, on_sensor]
  all_goals norm_num

/-- C4, amended: on a tick past warm-up with a power sensor configured whose
last state `S` is not NaN, if `T > 0`, `t ≤ T ≤ U` and `t ≤ 10 000 000`, the
power value published on that tick is `period_to_power(T)`, which is
`1e6 / T * power_multiplier`. -/
theorem update_power_steady (c : Config) (s : State) (now : Nat) (S : F32)
    (hwarm : 2 ≤ s.nth_value) (hp : s.power_sensor = some S) (hS : S ≠ F32.nan)
    (hT : 0 < s.cf_store.last_period)
    (htT : sub32 now s.cf_store.last_rise ≤ s.cf_store.last_period)
    (_hTU : s.cf_store.last_period ≤ interval_us c)
    (ht : sub32 now s.cf_store.last_rise ≤ 10000000) :
    on_sensor SensorId.power (update c s now).published =
      [period_to_power s (F32.ofNat s.cf_store.last_period)] ∧
    period_to_power s (F32.ofNat s.cf_store.last_period) =
      F32.mul (F32.fin (1000000 / (s.cf_store.last_period : ℚ))) s.power_multiplier := by
  constructor
  · rw [power_published c s now S hwarm hp]
    have h1 : ¬ (sub32 now s.cf_store.last_rise > 10000000 ∨ S = F32.nan) := by
      rintro (h | h)
      · omega
      · exact hS h
    have h2 : ¬ (sub32 now s.cf_store.last_rise > interval_us c ∧
        sub32 now s.cf_store.last_rise > s.cf_store.last_period ∧ S ≠ F32.fin 0) := by
      rintro ⟨_, h, _⟩
      omega
    rw [if_neg h1, if_neg h2]
  · rw [period_to_power, period_to_hz_pos _ hT]

/-- Witness of `update_power_steady`: 100 ms after the last CF edge, period
500 ms, one tick per second. -/
theorem update_power_steady_witness :
    on_sensor SensorId.power (update demo_config demo_state 1100000).published =
      [period_to_power demo_state (F32.ofNat demo_state.cf_store.last_period)] ∧
    period_to_power demo_state (F32.ofNat demo_state.cf_store.last_period) =
      F32.mul (F32.fin (1000000 / (demo_state.cf_store.last_period : ℚ)))
        demo_state.power_multiplier :=
  update_power_steady demo_config demo_state 1100000 (F32.fin 5) (by decide) rfl
    (by decide) (by decide) (by decide) (by decide) (by decide)

/-! ## Fresh channel -/

/-- C5, as stated, fails: after setup in current mode and eighteen silent
seconds the component has flipped to voltage mode (eleventh tick), the CF1
capture is not valid and the voltage sensor holds 0, so the fade-down
condition is false; the tick at 19 s publishes 0 on the voltage sensor and
flips back to current mode. -/
theorem fresh_channel_counterexample :
    2 ≤ idle_state.nth_value ∧ idle_state.cf1_store.valid = false ∧
      idle_state.current_mode = false ∧ idle_state.voltage_sensor = some (F32.fin 0) ∧
      ¬ (sub32 19000000 idle_state.cf1_store.last_rise > interval_us current_first_config ∧
          sub32 19000000 idle_state.cf1_store.last_rise > idle_state.cf1_store.last_period ∧
          F32.fin 0 ≠ F32.fin 0) ∧
      on_sensor SensorId.voltage (update current_first_config idle_state 19000000).published
        = [F32.fin 0] ∧
      (update current_first_config idle_state 19000000).state.current_mode = true := by
  decide

theorem cf1_block_wait (c : Config) (s : State) (now : Nat) (S : F32)
    (hs : active_sensor s = some S) (hv : s.cf1_store.valid = false)
    (hz : ¬ (sub32 now s.cf1_store.last_rise > 10000000 ∨ S = F32.nan))
    (hf : ¬ (sub32 now s.cf1_store.last_rise > interval_us c ∧
      sub32 now s.cf1_store.last_rise > s.cf1_store.last_period ∧ S ≠ F32.fin 0)) :
    cf1_block c s now = (s, [], true, false) := by
  rw [← F32.isnan_iff] at hz
  rw [← F32.ne0_iff] at hf
  cases hm : s.current_mode
  · have hs2 : s.voltage_sensor = some S := by simpa [active_sensor, hm] using hs
    rw [cf1_block_voltage c s now S hm hs2]
    simp only [voltage_block, hv, hz, hf, if_true, if_false]
  · have hs2 : s.current_sensor = some S := by simpa [active_sensor, hm] using hs
    rw [cf1_block_current c s now S hm hs2]
    simp only [current_block, hv, hz, hf, if_true, if_false]

/-- C5, amended: on a tick past warm-up on which the CF1 capture is not valid,
the sensor selected by `current_mode` is configured with a last state `S` that
is not NaN, `t ≤ 10 000 000` and the fade-down condition (`t > U`, `t > T` and
`S ≠ 0`) does not hold, `update` publishes nothing on the current sensor or on
the voltage sensor, defers the mode change and leaves `current_mode` as it
was. -/
theorem update_fresh_channel (c : Config) (s : State) (now : Nat) (S : F32)
    (hwarm : 2 ≤ s.nth_value) (hs : active_sensor s = some S)
    (hv : s.cf1_store.valid = false) (hS : S ≠ F32.nan)
    (ht : sub32 now s.cf1_store.last_rise ≤ 10000000)
    (hf : ¬ (sub32 now s.cf1_store.last_rise > interval_us c ∧
      sub32 now s.cf1_store.last_rise > s.cf1_store.last_period ∧ S ≠ F32.fin 0)) :
    on_sensor SensorId.current (update c s now).published = [] ∧
    on_sensor SensorId.voltage (update c s now).published = [] ∧
    (update c s now).dont_change_mode = true ∧
    (update c s now).forced_change = false ∧
    (update c s now).scheduled_change = false ∧
    (update c s now).state.current_mode = s.current_mode := by
  have hz : ¬ (sub32 now s.cf1_store.last_rise > 10000000 ∨ S = F32.nan) := by
    rintro (h | h)
    · omega
    · exact hS h
  have hb := cf1_block_wait c s now S hs hv hz hf
  obtain ⟨h1, h2, h3, h4, -, h6, -⟩ := update_fields c s now hwarm
  have hpo := power_block_other c s now
  rw [hb] at h1 h2 h3 h4 h6
  have h4f : (update c s now).scheduled_change = false := by simpa using h4
  refine ⟨?_, ?_, h2, h3, h4f, ?_⟩
  · rw [h1, on_sensor_append, hpo.1]; rfl
  · rw [h1, on_sensor_append, hpo.2]; rfl
  · rw [h6, h4f]; rfl

/-- Witness of `update_fresh_channel`: the reset capture one second after the
last CF1 edge, with a current value already published. -/
theorem update_fresh_channel_witness :
    on_sensor SensorId.current (update demo_config stale_state 2000000).published = [] ∧
    on_sensor SensorId.voltage (update demo_config stale_state 2000000).published = [] ∧
    (update demo_config stale_state 2000000).dont_change_mode = true ∧
    (update demo_config stale_state 2000000).forced_change = false ∧
    (update demo_config stale_state 2000000).scheduled_change = false ∧
    (update demo_config stale_state 2000000).state.current_mode = stale_state.current_mode :=
  update_fresh_channel demo_config stale_state 2000000 (F32.fin 3) (by decide) rfl rfl
    (by decide) (by decide) (by decide)

/-! ## Scheduler -/

theorem cf1_block_cases (c : Config) (s : State) (now : Nat) :
    cf1_block c s now = (change_mode s, [], true, true) ∨
    ((cf1_block c s now).2.2.2 = false ∧
      ∃ cs vs, (cf1_block c s now).1 = { s with current_sensor := cs, voltage_sensor := vs }) := by
  rcases s with ⟨nv, cm, cma, sp, cf, cf1, pm, cum, vm, psn, cs, vs⟩
  cases cs <;> cases cm <;> cases vs <;>
    simp only [cf1_block, current_block, voltage_block, true_or, false_or, true_and,
      reduceCtorEq, Prod.mk.injEq, and_false, and_true] <;>
    (try split_ifs) <;> exact ⟨_, _, rfl⟩

theorem update_nth_value (c : Config) (s : State) (now : Nat) (hwarm : 2 ≤ s.nth_value) :
    (update c s now).state.nth_value = s.nth_value := by
  rw [update_past_warmup c s now hwarm, power_block_frame c s now, cf1_block_frame]
  rcases cf1_block_cases c s now with h | ⟨-, cs, vs, h⟩ <;> rw [h] <;>
    simp only [change_mode] <;> split_ifs <;> rfl

/-- End of a tick past warm-up that does not set `dont_change_mode`. -/
theorem update_not_deferred (c : Config) (s : State) (now : Nat) (hwarm : 2 ≤ s.nth_value)
    (hd : (update c s now).dont_change_mode = false) :
    (update c s now).forced_change = false ∧
    (update c s now).scheduled_change = decide (s.change_mode_at ≥ c.change_mode_every) ∧
    (update c s now).state.current_mode =
      (if s.change_mode_at ≥ c.change_mode_every then !s.current_mode else s.current_mode) ∧
    (update c s now).state.change_mode_at =
      (if s.change_mode_at ≥ c.change_mode_every then 1 else (s.change_mode_at + 1) % 2 ^ 32) := by
  obtain ⟨-, h2, h3, h4, -, h6, h7⟩ := update_fields c s now hwarm
  rw [h2] at hd
  rcases cf1_block_cases c s now with h | ⟨hf, cs, vs, h⟩
  · rw [h] at hd
    simp at hd
  · rw [h4] at h6 h7
    rw [h] at h4 h6 h7
    rw [hd] at h4 h6 h7
    simp only [Bool.not_false, Bool.and_true, decide_eq_true_eq] at h4 h6 h7
    exact ⟨h3.trans hf, h4, h6, h7⟩

/-- End of a tick past warm-up that sets `dont_change_mode`. -/
theorem update_deferred (c : Config) (s : State) (now : Nat) (hwarm : 2 ≤ s.nth_value)
    (hd : (update c s now).dont_change_mode = true) :
    (update c s now).scheduled_change = false ∧
    ((update c s now).state.change_mode_at = (s.change_mode_at + 1) % 2 ^ 32 ∨
      (update c s now).state.change_mode_at = 2) := by
  obtain ⟨-, h2, -, h4, -, -, h7⟩ := update_fields c s now hwarm
  rw [h2] at hd
  rw [hd] at h4
  have h4f : (update c s now).scheduled_change = false := by simpa using h4
  refine ⟨h4f, ?_⟩
  rw [h4f] at h7
  simp only [Bool.false_eq_true, if_false] at h7
  rcases cf1_block_cases c s now with h | ⟨-, cs, vs, h⟩
  · right
    rw [h7, h]
    rfl
  · left
    rw [h7, h]

theorem step_edge_fields (c : Config) (s : State) (e : Event)
    (he : ∀ now, e ≠ Event.tick now) :
    (step c s e).nth_value = s.nth_value ∧ (step c s e).current_mode = s.current_mode ∧
    (step c s e).change_mode_at = s.change_mode_at := by
  cases e with
  | tick now => exact absurd rfl (he now)
  | cf_edge now => exact ⟨rfl, rfl, rfl⟩
  | cf1_edge now => exact ⟨rfl, rfl, rfl⟩

theorem cadence_before (c : Config) (hN32 : c.change_mode_every < 2 ^ 32) :
    ∀ (es : List Event) (s : State), 2 ≤ s.nth_value → deferred c s es = 0 →
      s.change_mode_at + ticks es ≤ c.change_mode_every →
      (run c s es).current_mode = s.current_mode ∧
      (run c s es).change_mode_at = s.change_mode_at + ticks es ∧
      2 ≤ (run c s es).nth_value := by
  intro es
  induction es with
  | nil => intro s hw _ _; exact ⟨rfl, rfl, hw⟩
  | cons e es ih =>
    intro s hw hd hk
    cases e with
    | tick now =>
      simp only [deferred, ticks] at hd hk
      have hdcm : (update c s now).dont_change_mode = false := by
        cases h : (update c s now).dont_change_mode
        · rfl
        · rw [h] at hd; simp at hd
      have hrest : deferred c (step c s (Event.tick now)) es = 0 := by omega
      obtain ⟨-, -, hm, ha⟩ := update_not_deferred c s now hw hdcm
      have hlt : ¬ s.change_mode_at ≥ c.change_mode_every := by omega
      rw [if_neg hlt] at hm ha
      have ha2 : (update c s now).state.change_mode_at = s.change_mode_at + 1 := by
        rw [ha]; exact Nat.mod_eq_of_lt (by omega)
      have hw2 : 2 ≤ (step c s (Event.tick now)).nth_value := by
        show 2 ≤ (update c s now).state.nth_value
        rw [update_nth_value c s now hw]; exact hw
      have := ih (step c s (Event.tick now)) hw2 hrest (by
        show (update c s now).state.change_mode_at + ticks es ≤ c.change_mode_every
        omega)
      obtain ⟨i1, i2, i3⟩ := this
      refine ⟨?_, ?_, i3⟩
      · show (run c (step c s (Event.tick now)) es).current_mode = s.current_mode
        rw [i1]; exact hm
      · show (run c (step c s (Event.tick now)) es).change_mode_at = _
        rw [i2]
        show (update c s now).state.change_mode_at + ticks es = _
        simp only [ticks]
        omega
    | cf_edge now =>
      obtain ⟨e1, e2, e3⟩ := step_edge_fields c s (Event.cf_edge now) (by intro n h; cases h)
      have := ih (step c s (Event.cf_edge now)) (by rw [e1]; exact hw) hd
        (by rw [e3]; exact hk)
      rw [e2, e3] at this
      exact this
    | cf1_edge now =>
      obtain ⟨e1, e2, e3⟩ := step_edge_fields c s (Event.cf1_edge now) (by intro n h; cases h)
      have := ih (step c s (Event.cf1_edge now)) (by rw [e1]; exact hw) hd
        (by rw [e3]; exact hk)
      rw [e2, e3] at this
      exact this

theorem cadence_at (c : Config) (hN : 1 ≤ c.change_mode_every)
    (hN32 : c.change_mode_every < 2 ^ 32) :
    ∀ (es : List Event) (s : State), 2 ≤ s.nth_value → deferred c s es = 0 →
      s.change_mode_at ≤ c.change_mode_every →
      s.change_mode_at + ticks es = c.change_mode_every + 1 →
      (run c s es).current_mode = !s.current_mode := by
  intro es
  induction es with
  | nil => intro s _ _ h1 h2; simp only [ticks] at h2; omega
  | cons e es ih =>
    intro s hw hd hle hk
    cases e with
    | tick now =>
      simp only [deferred, ticks] at hd hk
      have hdcm : (update c s now).dont_change_mode = false := by
        cases h : (update c s now).dont_change_mode
        · rfl
        · rw [h] at hd; simp at hd
      have hrest : deferred c (step c s (Event.tick now)) es = 0 := by omega
      obtain ⟨-, -, hm, ha⟩ := update_not_deferred c s now hw hdcm
      have hw2 : 2 ≤ (step c s (Event.tick now)).nth_value := by
        show 2 ≤ (update c s now).state.nth_value
        rw [update_nth_value c s now hw]; exact hw
      by_cases hfire : s.change_mode_at ≥ c.change_mode_every
      · rw [if_pos hfire] at hm ha
        have hb := cadence_before c hN32 es (step c s (Event.tick now)) hw2 hrest (by
          show (update c s now).state.change_mode_at + ticks es ≤ c.change_mode_every
          omega)
        show (run c (step c s (Event.tick now)) es).current_mode = _
        rw [hb.1]; exact hm
      · rw [if_neg hfire] at hm ha
        have ha2 : (update c s now).state.change_mode_at = s.change_mode_at + 1 := by
          rw [ha]; exact Nat.mod_eq_of_lt (by omega)
        have := ih (step c s (Event.tick now)) hw2 hrest
          (by show (update c s now).state.change_mode_at ≤ _; omega)
          (by show (update c s now).state.change_mode_at + ticks es = _; omega)
        show (run c (step c s (Event.tick now)) es).current_mode = _
        rw [this]
        show (!(update c s now).state.current_mode) = _
        rw [hm]
    | cf_edge now =>
      obtain ⟨e1, e2, e3⟩ := step_edge_fields c s (Event.cf_edge now) (by intro n h; cases h)
      have := ih (step c s (Event.cf_edge now)) (by rw [e1]; exact hw) hd
        (by rw [e3]; exact hle) (by rw [e3]; exact hk)
      rw [e2] at this
      exact this
    | cf1_edge now =>
      obtain ⟨e1, e2, e3⟩ := step_edge_fields c s (Event.cf1_edge now) (by intro n h; cases h)
      have := ih (step c s (Event.cf1_edge now)) (by rw [e1]; exact hw) hd
        (by rw [e3]; exact hle) (by rw [e3]; exact hk)
      rw [e2] at this
      exact this

/-- C6: from a state past warm-up with `change_mode_at = 1` (the state right
after a mode change) and `change_mode_every = N ≥ 1`, along any sequence of
update ticks and rising edges in which no tick defers the mode change,
`current_mode` is unchanged as long as fewer than `N` ticks have run and is
toggled once the `N`-th tick has run. No tick defers only if the sensor of the
active mode is configured, so that needs no separate hypothesis. -/
theorem scheduler_cadence (c : Config) (s : State) (es : List Event)
    (hN : 1 ≤ c.change_mode_every) (hN32 : c.change_mode_every < 2 ^ 32)
    (hwarm : 2 ≤ s.nth_value) (hat : s.change_mode_at = 1)
    (hd : deferred c s es = 0) (hk : ticks es ≤ c.change_mode_every) :
    (run c s es).current_mode =
      (if ticks es < c.change_mode_every then s.current_mode else !s.current_mode) := by
  by_cases h : ticks es < c.change_mode_every
  · rw [if_pos h]
    exact (cadence_before c hN32 es s hwarm hd (by omega)).1
  · rw [if_neg h]
    exact cadence_at c hN hN32 es s hwarm hd (by omega) (by omega)

/-- Witness of `scheduler_cadence` with `change_mode_every = 8`: after the
change to current mode one CF1 edge makes the capture valid, and the eighth
tick toggles the mode. -/
theorem scheduler_cadence_witness :
    ticks edge_then_eight_ticks = 8 ∧
    (run demo_config flipped_state edge_then_eight_ticks).current_mode =
      (if ticks edge_then_eight_ticks < demo_config.change_mode_every
        then flipped_state.current_mode else !flipped_state.current_mode) :=
  ⟨by decide, scheduler_cadence demo_config flipped_state edge_then_eight_ticks (by decide)
    (by decide) (by decide) (by decide) (by decide) (by decide)⟩

/-- C7, as stated, fails: six ticks after a mode change the counter is 7 with
`change_mode_every = 8`; the next tick does not defer and increments the
counter to 8, yet no change is invoked, because the comparison uses the value
before the increment. -/
theorem end_of_tick_rule_counterexample :
    2 ≤ seventh_tick_state.nth_value ∧ seventh_tick_state.change_mode_at = 7 ∧
      (update demo_config seventh_tick_state 8000000).dont_change_mode = false ∧
      (update demo_config seventh_tick_state 8000000).state.change_mode_at = 8 ∧
      (update demo_config seventh_tick_state 8000000).state.change_mode_at
        ≥ demo_config.change_mode_every ∧
      (update demo_config seventh_tick_state 8000000).scheduled_change = false ∧
      (update demo_config seventh_tick_state 8000000).state.current_mode
        = seventh_tick_state.current_mode := by
  decide

/-- C7, amended: on a tick past warm-up the change at the end of the tick is
invoked if and only if `dont_change_mode` is false and `change_mode_at`, as it
was before this tick incremented it, is at least `change_mode_every`. -/
theorem update_scheduled_change_iff (c : Config) (s : State) (now : Nat)
    (hwarm : 2 ≤ s.nth_value) :
    (update c s now).scheduled_change = true ↔
      ((update c s now).dont_change_mode = false ∧
        s.change_mode_at ≥ c.change_mode_every) := by
  cases hd : (update c s now).dont_change_mode
  · rw [(update_not_deferred c s now hwarm hd).2.1]
    simp
  · rw [(update_deferred c s now hwarm hd).1]
    simp

/-- Witness of `update_scheduled_change_iff` on the sample state. -/
theorem update_scheduled_change_iff_witness :
    (update demo_config demo_state 3000000).scheduled_change = true ↔
      ((update demo_config demo_state 3000000).dont_change_mode = false ∧
        demo_state.change_mode_at ≥ demo_config.change_mode_every) :=
  update_scheduled_change_iff demo_config demo_state 3000000 (by decide)

/-- C8: on a tick past warm-up on which the sensor of the active mode is
absent, `update` changes the mode exactly once: the missing-sensor branch runs
`change_mode`, the end-of-tick check does not, `current_mode` ends negated,
and nothing is published on the current or voltage sensor, for every
`change_mode_at` and `change_mode_every`. -/
theorem update_missing_sensor (c : Config) (s : State) (now : Nat)
    (hwarm : 2 ≤ s.nth_value)
    (h : (s.current_sensor = none ∧ s.current_mode = true) ∨
      (s.voltage_sensor = none ∧ s.current_mode = false)) :
    (update c s now).forced_change = true ∧
    (update c s now).scheduled_change = false ∧
    (update c s now).state.current_mode = (!s.current_mode) ∧
    on_sensor SensorId.current (update c s now).published = [] ∧
    on_sensor SensorId.voltage (update c s now).published = [] := by
  obtain ⟨h1, -, h3, h4, -, h6, -⟩ := update_fields c s now hwarm
  have hb := cf1_block_missing c s now h
  have hpo := power_block_other c s now
  rw [hb] at h1 h3 h4 h6
  have h4f : (update c s now).scheduled_change = false := by simpa using h4
  refine ⟨h3, h4f, ?_, ?_, ?_⟩
  · rw [h6, h4f]; rfl
  · rw [h1, on_sensor_append, hpo.1]; rfl
  · rw [h1, on_sensor_append, hpo.2]; rfl

/-- Witness of `update_missing_sensor`: current mode without a current sensor. -/
theorem update_missing_sensor_witness :
    (update demo_config no_current_sensor_state 3000000).forced_change = true ∧
    (update demo_config no_current_sensor_state 3000000).scheduled_change = false ∧
    (update demo_config no_current_sensor_state 3000000).state.current_mode
      = (!no_current_sensor_state.current_mode) ∧
    on_sensor SensorId.current
      (update demo_config no_current_sensor_state 3000000).published = [] ∧
    on_sensor SensorId.voltage
      (update demo_config no_current_sensor_state 3000000).published = [] :=
  update_missing_sensor demo_config no_current_sensor_state 3000000 (by decide)
    (Or.inl ⟨rfl, rfl⟩)

/-! ## Warm-up -/

theorem update_warmup (c : Config) (s : State) (now : Nat) (h : s.nth_value < 2) :
    (update c s now).state = { s with nth_value := s.nth_value + 1 } ∧
    (update c s now).published = [] ∧ (update c s now).warmup = true ∧
    (update c s now).dont_change_mode = false := by
  simp only [update, h, if_true, and_self]

/-- C10, as stated, fails: with `change_mode_every = 8`, two ticks per second
and no edge on CF1, the voltage sensor is set to 0 at the third tick and the
next seventeen ticks wait for a first period; each of them increments the
counter, which is 18 after ten seconds. -/
theorem counter_bound_counterexample :
    1 ≤ fast_config.change_mode_every ∧
      (run fast_config (boot fast_config) fast_idle_ticks).change_mode_at = 18 ∧
      ¬ ((run fast_config (boot fast_config) fast_idle_ticks).change_mode_at
          ≤ fast_config.change_mode_every + 1) := by
  decide

theorem update_counter_streak (c : Config) (s : State) (now : Nat)
    (hN : 1 ≤ c.change_mode_every) (k : Nat)
    (h1 : s.nth_value < 2 → s.change_mode_at ≤ c.change_mode_every)
    (h2 : s.change_mode_at ≤ c.change_mode_every + k) :
    (update c s now).state.change_mode_at ≤
      c.change_mode_every + (if (update c s now).dont_change_mode then k + 1 else 0) ∧
    ((update c s now).state.nth_value < 2 →
      (update c s now).state.change_mode_at ≤ c.change_mode_every) := by
  by_cases hw : s.nth_value < 2
  · obtain ⟨hs, -, -, hd⟩ := update_warmup c s now hw
    rw [hs, hd]
    simp only [Bool.false_eq_true, if_false, Nat.add_zero]
    exact ⟨h1 hw, fun _ => h1 hw⟩
  · have hw2 : 2 ≤ s.nth_value := by omega
    have hn := update_nth_value c s now hw2
    refine ⟨?_, fun h => by omega⟩
    cases hd : (update c s now).dont_change_mode
    · obtain ⟨-, -, -, ha⟩ := update_not_deferred c s now hw2 hd
      rw [ha]
      simp only [Bool.false_eq_true, if_false, Nat.add_zero]
      split_ifs with hf
      · omega
      · have := Nat.mod_le (s.change_mode_at + 1) (2 ^ 32)
        omega
    · obtain ⟨-, ha⟩ := update_deferred c s now hw2 hd
      simp only [if_true]
      rcases ha with ha | ha
      · rw [ha]
        have := Nat.mod_le (s.change_mode_at + 1) (2 ^ 32)
        omega
      · rw [ha]; omega

theorem run_counter_streak (c : Config) (hN : 1 ≤ c.change_mode_every) :
    ∀ (es : List Event) (s : State) (k : Nat),
      (s.nth_value < 2 → s.change_mode_at ≤ c.change_mode_every) →
      s.change_mode_at ≤ c.change_mode_every + k →
      (run c s es).change_mode_at ≤ c.change_mode_every + streak_from c s k es := by
  intro es
  induction es with
  | nil => intro s k _ h2; exact h2
  | cons e es ih =>
    intro s k h1 h2
    cases e with
    | tick now =>
      obtain ⟨a, b⟩ := update_counter_streak c s now hN k h1 h2
      exact ih (step c s (Event.tick now)) _ b a
    | cf_edge now => exact ih (step c s (Event.cf_edge now)) k h1 h2
    | cf1_edge now => exact ih (step c s (Event.cf1_edge now)) k h1 h2

/-- C10, amended: in every state reachable from setup by update ticks and
rising edges, for any `change_mode_every ≥ 1` and any sensor configuration,
`change_mode_at ≤ change_mode_every + d`, where `d` is the number of update
ticks at the end of the run that deferred the mode change one after the other
(0 when the last tick did not defer); so the counter is at most
`change_mode_every` after every tick that does not defer and at most
`change_mode_every + 1` after a single deferred tick. -/
theorem counter_bound (c : Config) (es : List Event) (hN : 1 ≤ c.change_mode_every) :
    (run c (boot c) es).change_mode_at ≤ c.change_mode_every + streak c (boot c) es := by
  have h0 : (boot c).change_mode_at = 0 := by
    simp only [boot, setup, initial_state]
    split_ifs <;> rfl
  exact run_counter_streak c hN es (boot c) 0 (fun _ => by omega) (by omega)

/-- Witness of `counter_bound`: the ten silent seconds at two ticks per
second, where the counter is 18, `change_mode_every` is 8 and the last
seventeen ticks have deferred. -/
theorem counter_bound_witness :
    streak fast_config (boot fast_config) fast_idle_ticks = 17 ∧
    (run fast_config (boot fast_config) fast_idle_ticks).change_mode_at ≤
      fast_config.change_mode_every + streak fast_config (boot fast_config) fast_idle_ticks :=
  ⟨by decide, counter_bound fast_config fast_idle_ticks (by decide)⟩

/-! ## Deferred ticks -/

/-- C11, as stated, fails: on the tick right after the scheduled change to
voltage mode the CF1 capture is not valid and the tick defers without a forced
change, yet the counter goes from 1 to 2. -/
theorem deferred_tick_counterexample :
    2 ≤ after_flip_state.nth_value ∧ after_flip_state.current_mode = false ∧
      after_flip_state.cf1_store.valid = false ∧
      after_flip_state.change_mode_at = 1 ∧
      (update demo_config after_flip_state 10000000).dont_change_mode = true ∧
      (update demo_config after_flip_state 10000000).forced_change = false ∧
      (update demo_config after_flip_state 10000000).state.change_mode_at = 2 := by
  decide

/-- C11, amended: on a tick past warm-up that defers the mode change without a
forced change, the end-of-tick check invokes no change and `current_mode` is
unchanged, while `change_mode_at` is one more (modulo 2^32) than before the
tick. -/
theorem update_deferred_tick (c : Config) (s : State) (now : Nat)
    (hwarm : 2 ≤ s.nth_value) (hd : (update c s now).dont_change_mode = true)
    (hf : (update c s now).forced_change = false) :
    (update c s now).scheduled_change = false ∧
    (update c s now).state.current_mode = s.current_mode ∧
    (update c s now).state.change_mode_at = (s.change_mode_at + 1) % 2 ^ 32 := by
  obtain ⟨-, h2, h3, h4, -, h6, h7⟩ := update_fields c s now hwarm
  rw [h2] at hd
  rw [h3] at hf
  rw [hd] at h4
  have h4f : (update c s now).scheduled_change = false := by simpa using h4
  rw [h4f] at h6 h7
  simp only [Bool.false_eq_true, if_false] at h6 h7
  rcases cf1_block_cases c s now with h | ⟨-, cs, vs, h⟩
  · rw [h] at hf
    simp at hf
  · rw [h] at h6 h7
    exact ⟨h4f, h6, h7⟩

/-- Witness of `update_deferred_tick`: the tick right after the scheduled
change to voltage mode. -/
theorem update_deferred_tick_witness :
    (update demo_config after_flip_state 10000000).scheduled_change = false ∧
    (update demo_config after_flip_state 10000000).state.current_mode
      = after_flip_state.current_mode ∧
    (update demo_config after_flip_state 10000000).state.change_mode_at
      = (after_flip_state.change_mode_at + 1) % 2 ^ 32 :=
  update_deferred_tick demo_config after_flip_state 10000000 (by decide) (by decide)
    (by decide)

/-! ## Mode change -/

theorem update_sel_pin (c : Config) (s : State) (now : Nat)
    (h : s.sel_pin = s.current_mode) :
    (update c s now).state.sel_pin = (update c s now).state.current_mode := by
  by_cases hw : s.nth_value < 2
  · rw [(update_warmup c s now hw).1]
    exact h
  · rw [update_past_warmup c s now (by omega), power_block_frame c s now, cf1_block_frame]
    rcases cf1_block_cases c s now with hb | ⟨-, cs, vs, hb⟩ <;> rw [hb] <;>
      simp only [change_mode] <;> split_ifs <;> first | rfl | exact h

theorem run_sel_pin (c : Config) :
    ∀ (es : List Event) (s : State), s.sel_pin = s.current_mode →
      (run c s es).sel_pin = (run c s es).current_mode := by
  intro es
  induction es with
  | nil => intro s h; exact h
  | cons e es ih =>
    intro s h
    cases e with
    | tick now => exact ih _ (update_sel_pin c s now h)
    | cf_edge now => exact ih (step c s (Event.cf_edge now)) h
    | cf1_edge now => exact ih (step c s (Event.cf1_edge now)) h

theorem boot_sel_pin (c : Config) : (boot c).sel_pin = (boot c).current_mode := by
  simp only [boot, setup, initial_state]
  split_ifs <;> rfl

/-- C12: for every state `change_mode` toggles `current_mode`, sets
`change_mode_at` to 1, writes the new `current_mode` to the selector pin and
resets the CF1 capture, whose valid flag becomes false, and leaves the CF
capture, the multipliers, `nth_value` and the sensor states unchanged; and
after setup and after any sequence of update ticks and rising edges the
selector pin carries `current_mode`. -/
theorem change_mode_postcondition (c : Config) (s : State) (es : List Event) :
    (change_mode s).current_mode = (!s.current_mode) ∧
    (change_mode s).change_mode_at = 1 ∧
    (change_mode s).sel_pin = (change_mode s).current_mode ∧
    (change_mode s).cf1_store = s.cf1_store.reset ∧
    (change_mode s).cf1_store.valid = false ∧
    (change_mode s).cf_store = s.cf_store ∧
    (change_mode s).power_multiplier = s.power_multiplier ∧
    (change_mode s).current_multiplier = s.current_multiplier ∧
    (change_mode s).voltage_multiplier = s.voltage_multiplier ∧
    (change_mode s).nth_value = s.nth_value ∧
    (change_mode s).power_sensor = s.power_sensor ∧
    (change_mode s).current_sensor = s.current_sensor ∧
    (change_mode s).voltage_sensor = s.voltage_sensor ∧
    (boot c).sel_pin = (boot c).current_mode ∧
    (run c (boot c) es).sel_pin = (run c (boot c) es).current_mode :=
  ⟨rfl, rfl, rfl, rfl, rfl, rfl, rfl, rfl, rfl, rfl, rfl, rfl, rfl, boot_sel_pin c,
    run_sel_pin c es (boot c) (boot_sel_pin c)⟩

/-! ## Calibration -/

theorem F32.div_fin (a b : ℚ) (hb : b ≠ 0) : F32.div (F32.fin a) (F32.fin b) = F32.fin (a / b) := by
  simp [F32.div, hb]

theorem F32.mul_fin (a b : ℚ) : F32.mul (F32.fin a) (F32.fin b) = F32.fin (a * b) := rfl

/-- C13: in exact arithmetic, for every shunt value `R ≠ 0` and divider `d`,
`setup` computes for BL0937, with `Vref = 1.218`, the multipliers
`Vref²·d/R/1721506`, `Vref/R/94638` and `Vref·d/15397`, and for every other
model, with `Vref = 2.43` and `Fclk = 3579000`, the multipliers
`Vref²·d/R·(64/24)/Fclk`, `Vref/R·(512/24)/Fclk` and `Vref·d·256/Fclk`; and the
three multipliers are the same for any two configurations and starting states
that agree on `sensor_model`, `current_resistor` and `voltage_divider`. -/
theorem setup_multipliers (c : Config) (s : State) (R d : ℚ)
    (hR : c.current_resistor = F32.fin R) (hd : c.voltage_divider = F32.fin d) (hR0 : R ≠ 0) :
    (c.sensor_model = SensorModel.BL0937 →
      (setup c s).power_multiplier
        = F32.fin ((1218 / 1000) ^ 2 * d / R / 1721506) ∧
      (setup c s).current_multiplier = F32.fin ((1218 / 1000) / R / 94638) ∧
      (setup c s).voltage_multiplier = F32.fin ((1218 / 1000) * d / 15397)) ∧
    (c.sensor_model ≠ SensorModel.BL0937 →
      (setup c s).power_multiplier
        = F32.fin ((243 / 100) ^ 2 * d / R * (64 / 24) / 3579000) ∧
      (setup c s).current_multiplier = F32.fin ((243 / 100) / R * (512 / 24) / 3579000) ∧
      (setup c s).voltage_multiplier = F32.fin ((243 / 100) * d * 256 / 3579000)) ∧
    (∀ (c2 : Config) (s2 : State), c2.sensor_model = c.sensor_model →
      c2.current_resistor = c.current_resistor → c2.voltage_divider = c.voltage_divider →
      (setup c2 s2).power_multiplier = (setup c s).power_multiplier ∧
      (setup c2 s2).current_multiplier = (setup c s).current_multiplier ∧
      (setup c2 s2).voltage_multiplier = (setup c s).voltage_multiplier) := by
  refine ⟨?_, ?_, ?_⟩
  · intro hm
    simp only [setup, hm, if_true, hR, hd, F32.mul_fin]
    rw [F32.div_fin _ _ hR0, F32.div_fin _ _ hR0]
    rw [F32.div_fin _ _ (by norm_num), F32.div_fin _ _ (by norm_num),
      F32.div_fin _ _ (by norm_num)]
    refine ⟨?_, rfl, rfl⟩
    congr 1
    ring
  · intro hm
    simp only [setup, hm, if_false, hR, hd, F32.mul_fin, F32.ofNat, HLW8012_CLOCK_FREQUENCY]
    rw [F32.div_fin _ _ hR0, F32.div_fin _ _ hR0]
    simp only [F32.mul_fin]
    have h24 : (24 : ℚ) ≠ 0 := by norm_num
    have hF : ((3579000 : ℕ) : ℚ) ≠ 0 := by norm_num
    rw [F32.div_fin _ _ h24, F32.div_fin _ _ h24, F32.div_fin _ _ hF, F32.div_fin _ _ hF,
      F32.div_fin _ _ hF]
    refine ⟨?_, ?_, ?_⟩ <;> congr 1 <;> push_cast <;> ring
  · intro c2 s2 h1 h2 h3
    simp only [setup, h1, h2, h3]
    split_ifs <;> exact ⟨rfl, rfl, rfl⟩

/-- Witness of `setup_multipliers`: the sample configuration (HLW8012, 1 mΩ
shunt, divider 2351). -/
theorem setup_multipliers_witness :
    (boot demo_config).power_multiplier
      = F32.fin ((243 / 100) ^ 2 * 2351 / (1 / 1000) * (64 / 24) / 3579000) ∧
    (boot demo_config).current_multiplier
      = F32.fin ((243 / 100) / (1 / 1000) * (512 / 24) / 3579000) ∧
    (boot demo_config).voltage_multiplier = F32.fin ((243 / 100) * 2351 * 256 / 3579000) :=
  (setup_multipliers demo_config (initial_state demo_config) (1 / 1000) 2351 rfl rfl
    (by norm_num)).2.1 (by decide)

/-! ## Period conversion -/

/-- C14, as stated, fails for a multiplier that is not finite: with a shunt
value of 0 `setup` divides by zero, the current multiplier is `+∞`, and the
conversion of a zero period is `0 · ∞`, which is NaN, not 0. -/
theorem zero_period_counterexample :
    (boot shorted_config).current_multiplier = F32.pinf ∧
      period_to_hz (F32.ofNat 0) = F32.fin 0 ∧
      period_to_current (boot shorted_config) (F32.ofNat 0) = F32.nan ∧
      period_to_current (boot shorted_config) (F32.ofNat 0) ≠ F32.fin 0 := by
  have h1 : (boot shorted_config).current_multiplier = F32.pinf := by
    have e1 : F32.div (F32.fin (243 / 100)) (F32.fin 0) = F32.pinf := by
      norm_num [F32.div, F32.signedInf]
    have e2 : F32.mul F32.pinf (F32.fin 512) = F32.pinf := by
      norm_num [F32.mul, F32.signedInf]
    have e3 : F32.div F32.pinf (F32.fin 24) = F32.pinf := by
      norm_num [F32.div, F32.signedInf]
    have e4 : F32.div F32.pinf (F32.ofNat HLW8012_CLOCK_FREQUENCY) = F32.pinf := by
      norm_num [F32.div, F32.signedInf, F32.ofNat]
    have e0 : (boot shorted_config).current_multiplier =
        F32.div (F32.div (F32.mul (F32.div (F32.fin (243 / 100)) (F32.fin 0)) (F32.fin 512))
          (F32.fin 24)) (F32.ofNat HLW8012_CLOCK_FREQUENCY) := rfl
    rw [e0, e1, e2, e3, e4]
  have h2 : period_to_hz (F32.ofNat 0) = F32.fin 0 := by
    simp [period_to_hz, F32.ofNat, F32.eq0]
  have h3 : period_to_current (boot shorted_config) (F32.ofNat 0) = F32.nan := by
    rw [period_to_current, h1, h2]
    simp [F32.mul]
  refine ⟨h1, h2, h3, ?_⟩
  rw [h3]
  exact fun h => F32.noConfusion h

theorem period_to_hz_fin (p : ℚ) :
    period_to_hz (F32.fin p) = F32.fin (if p = 0 then 0 else 1000000 / p) := by
  by_cases h : p = 0
  · simp [period_to_hz, F32.eq0, h]
  · simp [period_to_hz, F32.eq0, F32.div, h]

/-- C14, amended: `period_to_hz(p)` is 0 when `p = 0` and `1 000 000 / p` for
every `p ≠ 0`, each `period_to_X(x)` is `period_to_hz(x)` times the multiplier
of `X`, and for every finite value of the multipliers the conversion of a zero
period is 0 for power, current and voltage. -/
theorem period_conversion (s : State) (p : ℚ) (x : F32) (mp mc mv : ℚ)
    (hp : s.power_multiplier = F32.fin mp) (hc : s.current_multiplier = F32.fin mc)
    (hv : s.voltage_multiplier = F32.fin mv) :
    period_to_hz (F32.fin p) = F32.fin (if p = 0 then 0 else 1000000 / p) ∧
    period_to_power s x = F32.mul (period_to_hz x) s.power_multiplier ∧
    period_to_current s x = F32.mul (period_to_hz x) s.current_multiplier ∧
    period_to_voltage s x = F32.mul (period_to_hz x) s.voltage_multiplier ∧
    period_to_power s (F32.fin 0) = F32.fin 0 ∧
    period_to_current s (F32.fin 0) = F32.fin 0 ∧
    period_to_voltage s (F32.fin 0) = F32.fin 0 := by
  have h0 : period_to_hz (F32.fin 0) = F32.fin 0 := by
    rw [period_to_hz_fin]; simp
  refine ⟨period_to_hz_fin p, rfl, rfl, rfl, ?_, ?_, ?_⟩
  · rw [period_to_power, h0, hp, F32.mul_fin, zero_mul]
  · rw [period_to_current, h0, hc, F32.mul_fin, zero_mul]
  · rw [period_to_voltage, h0, hv, F32.mul_fin, zero_mul]

/-- Witness of `period_conversion`: period 200 µs on the sample state, whose
multipliers are 1. -/
theorem period_conversion_witness :
    period_to_hz (F32.fin 200) = F32.fin (if (200 : ℚ) = 0 then 0 else 1000000 / 200) ∧
    period_to_power demo_state (F32.fin 200)
      = F32.mul (period_to_hz (F32.fin 200)) demo_state.power_multiplier ∧
    period_to_current demo_state (F32.fin 200)
      = F32.mul (period_to_hz (F32.fin 200)) demo_state.current_multiplier ∧
    period_to_voltage demo_state (F32.fin 200)
      = F32.mul (period_to_hz (F32.fin 200)) demo_state.voltage_multiplier ∧
    period_to_power demo_state (F32.fin 0) = F32.fin 0 ∧
    period_to_current demo_state (F32.fin 0) = F32.fin 0 ∧
    period_to_voltage demo_state (F32.fin 0) = F32.fin 0 :=
  period_conversion demo_state 200 (F32.fin 200) 1 1 1 rfl rfl rfl

/-- C15: in exact arithmetic, for every frequency `f > 0`, `period_to_hz` of
the period `1 000 000 / f` is `f`, and `period_to_hz(period_to_hz(x)) = x` for
every `x`, zero included. -/
theorem period_to_hz_round_trip (f x : ℚ) (hf : 0 < f) :
    period_to_hz (F32.fin (1000000 / f)) = F32.fin f ∧
    period_to_hz (period_to_hz (F32.fin x)) = F32.fin x := by
  constructor
  · rw [period_to_hz_fin]
    have hf0 : f ≠ 0 := ne_of_gt hf
    have h : (1000000 : ℚ) / f ≠ 0 := div_ne_zero (by norm_num) hf0
    rw [if_neg h]
    congr 1
    field_simp
  · rw [period_to_hz_fin, period_to_hz_fin]
    by_cases hx : x = 0
    · simp [hx]
    · have h : (1000000 : ℚ) / x ≠ 0 := div_ne_zero (by norm_num) hx
      rw [if_neg hx, if_neg h]
      congr 1
      field_simp

/-- Witness of `period_to_hz_round_trip`: 5 kHz, the frequency of a 200 µs
period. -/
theorem period_to_hz_round_trip_witness :
    period_to_hz (F32.fin (1000000 / 5000)) = F32.fin 5000 ∧
    period_to_hz (period_to_hz (F32.fin 200)) = F32.fin 200 :=
  period_to_hz_round_trip 5000 200 (by norm_num)

/-! ## Clock wrap -/

theorem sub32_shift (now lr k : Nat) :
    sub32 ((now + k) % 2 ^ 32) ((lr + k) % 2 ^ 32) = sub32 now lr := by
  simp only [sub32]
  omega

theorem sub32_elapsed (r d : Nat) (hd : d < 2 ^ 32) :
    sub32 ((r + d) % 2 ^ 32) (r % 2 ^ 32) = d := by
  simp only [sub32]
  omega

theorem power_block_shift (c : Config) (s : State) (now k : Nat) :
    power_block c (shift_clock k s) ((now + k) % 2 ^ 32) =
      (shift_clock k (power_block c s now).1, (power_block c s now).2) := by
  rcases s with ⟨nv, cm, cma, sp, ⟨r, p, v⟩, ⟨r1, p1, v1⟩, pm, cum, vm, psn, cs, vs⟩
  cases psn <;>
    simp only [power_block, shift_clock, sub32_shift, period_to_power]

theorem cf1_block_shift (c : Config) (s : State) (now k : Nat) :
    cf1_block c (shift_clock k s) ((now + k) % 2 ^ 32) =
      (shift_clock k (cf1_block c s now).1, (cf1_block c s now).2) := by
  rcases s with ⟨nv, cm, cma, sp, ⟨r, p, v⟩, ⟨r1, p1, v1⟩, pm, cum, vm, psn, cs, vs⟩
  cases cs <;> cases cm <;> cases vs <;>
    simp only [cf1_block, current_block, voltage_block, shift_clock, sub32_shift,
      period_to_current, period_to_voltage, change_mode, Store.reset] <;>
    (try split_ifs) <;> rfl

theorem update_shift (c : Config) (s : State) (now k : Nat) :
    update c (shift_clock k s) ((now + k) % 2 ^ 32) =
      { state := shift_clock k (update c s now).state
        published := (update c s now).published
        dont_change_mode := (update c s now).dont_change_mode
        forced_change := (update c s now).forced_change
        scheduled_change := (update c s now).scheduled_change
        warmup := (update c s now).warmup } := by
  by_cases hw : s.nth_value < 2
  · have hw2 : (shift_clock k s).nth_value < 2 := hw
    simp only [update, hw, hw2, if_true]
    rfl
  · have hw2 : ¬ (shift_clock k s).nth_value < 2 := hw
    have hat : ∀ x : State, (shift_clock k x).change_mode_at = x.change_mode_at :=
      fun _ => rfl
    simp only [update, hw, hw2, if_false, power_block_shift, cf1_block_shift, hat]
    split_ifs <;> rfl

/-- C16: the elapsed time is the 32-bit difference, so for a rising edge at
true time `r` and a tick `d < 2^32` microseconds later the difference of the
two counter readings is `d`, wrapped or not; and when `now` and the last-rise
timestamps of both captures are moved by the same offset `k` modulo 2^32,
`update` publishes the same values, takes the same mode decision and leaves the
same state, moved by `k`. -/
theorem clock_wrap (c : Config) (s : State) (now k r d : Nat) (hd : d < 2 ^ 32) :
    sub32 ((r + d) % 2 ^ 32) (r % 2 ^ 32) = d ∧
    (update c (shift_clock k s) ((now + k) % 2 ^ 32)).published = (update c s now).published ∧
    (update c (shift_clock k s) ((now + k) % 2 ^ 32)).dont_change_mode
      = (update c s now).dont_change_mode ∧
    (update c (shift_clock k s) ((now + k) % 2 ^ 32)).forced_change
      = (update c s now).forced_change ∧
    (update c (shift_clock k s) ((now + k) % 2 ^ 32)).scheduled_change
      = (update c s now).scheduled_change ∧
    (update c (shift_clock k s) ((now + k) % 2 ^ 32)).state.current_mode
      = (update c s now).state.current_mode ∧
    (update c (shift_clock k s) ((now + k) % 2 ^ 32)).state
      = shift_clock k (update c s now).state := by
  rw [update_shift]
  exact ⟨sub32_elapsed r d hd, rfl, rfl, rfl, rfl, rfl, rfl⟩

/-- Witness of `clock_wrap`: an edge 296 µs before the counter wraps and a
tick 1000 µs after the edge; the sample state moved to just before the wrap. -/
theorem clock_wrap_witness :
    (4294967000 + 1000) % 2 ^ 32 = 704 ∧
    (sub32 ((4294967000 + 1000) % 2 ^ 32) (4294967000 % 2 ^ 32) = 1000 ∧
    (update demo_config (shift_clock 4294000000 demo_state)
        ((3000000 + 4294000000) % 2 ^ 32)).published
      = (update demo_config demo_state 3000000).published ∧
    (update demo_config (shift_clock 4294000000 demo_state)
        ((3000000 + 4294000000) % 2 ^ 32)).dont_change_mode
      = (update demo_config demo_state 3000000).dont_change_mode ∧
    (update demo_config (shift_clock 4294000000 demo_state)
        ((3000000 + 4294000000) % 2 ^ 32)).forced_change
      = (update demo_config demo_state 3000000).forced_change ∧
    (update demo_config (shift_clock 4294000000 demo_state)
        ((3000000 + 4294000000) % 2 ^ 32)).scheduled_change
      = (update demo_config demo_state 3000000).scheduled_change ∧
    (update demo_config (shift_clock 4294000000 demo_state)
        ((3000000 + 4294000000) % 2 ^ 32)).state.current_mode
      = (update demo_config demo_state 3000000).state.current_mode ∧
    (update demo_config (shift_clock 4294000000 demo_state)
        ((3000000 + 4294000000) % 2 ^ 32)).state
      = shift_clock 4294000000 (update demo_config demo_state 3000000).state) :=
  ⟨by decide, clock_wrap demo_config demo_state 3000000 4294000000 4294967000 1000
    (by decide)⟩

/-! ## CF1 decision -/

theorem current_block_out (c : Config) (s : State) (now : Nat) (S : F32) :
    on_sensor SensorId.current (current_block c s now S).2.1 =
      (if s.cf1_store.valid = true then
        [period_to_current s (F32.ofNat s.cf1_store.last_period)]
       else if sub32 now s.cf1_store.last_rise > 10000000 ∨ S = F32.nan then [F32.fin 0]
       else if sub32 now s.cf1_store.last_rise > interval_us c ∧
           sub32 now s.cf1_store.last_rise > s.cf1_store.last_period ∧ S ≠ F32.fin 0 then
         [period_to_current s (F32.ofNat (sub32 now s.cf1_store.last_rise))]
       else []) ∧
    (current_block c s now S).2.2 =
      (if s.cf1_store.valid = true then false
       else if sub32 now s.cf1_store.last_rise > 10000000 ∨ S = F32.nan then false
       else true) := by
  cases hv : s.cf1_store.valid
  · simp only [current_block, hv, F32.isnan_iff, F32.ne0_iff, if_true, Bool.false_eq_true, if_false]
    split_ifs <;> simp [on_sensor]
  · simp [current_block, hv, on_sensor]

theorem voltage_block_out (c : Config) (s : State) (now : Nat) (S : F32) :
    on_sensor SensorId.voltage (voltage_block c s now S).2.1 =
      (if s.cf1_store.valid = true then
        [period_to_voltage s (F32.ofNat s.cf1_store.last_period)]
       else if sub32 now s.cf1_store.last_rise > 10000000 ∨ S = F32.nan then [F32.fin 0]
       else if sub32 now s.cf1_store.last_rise > interval_us c ∧
           sub32 now s.cf1_store.last_rise > s.cf1_store.last_period ∧ S ≠ F32.fin 0 then
         [period_to_voltage s (F32.ofNat (sub32 now s.cf1_store.last_rise))]
       else []) ∧
    (voltage_block c s now S).2.2 =
      (if s.cf1_store.valid = true then false
       else if sub32 now s.cf1_store.last_rise > 10000000 ∨ S = F32.nan then false
       else true) := by
  cases hv : s.cf1_store.valid
  · simp only [voltage_block, hv, F32.isnan_iff, F32.ne0_iff, if_true, Bool.false_eq_true, if_false]
    split_ifs <;> simp [on_sensor]
  · simp [voltage_block, hv, on_sensor]

/-- C17, amended: on a tick past warm-up on which the sensor selected by
`current_mode` is configured with last state `S`, with `U` the 32-bit product
`update_interval*1000` reduced modulo 2^32: if the CF1 capture is valid, `update`
publishes on that sensor the conversion of `T` and does not defer, whatever `t`
and `S` are; if it is not valid, `update` publishes 0 without deferring when
`t > 10 000 000` or `S` is NaN, otherwise publishes the conversion of `t` and
defers when `t > U`, `t > T` and `S ≠ 0`, otherwise publishes nothing and
defers. The conversion is `period_to_current` in current mode and
`period_to_voltage` in voltage mode. -/
theorem update_cf1_decision (c : Config) (s : State) (now : Nat) (S : F32)
    (hwarm : 2 ≤ s.nth_value) (hs : active_sensor s = some S) :
    on_sensor (active_id s) (update c s now).published =
      (if s.cf1_store.valid = true then
        [period_to_active s (F32.ofNat s.cf1_store.last_period)]
       else if sub32 now s.cf1_store.last_rise > 10000000 ∨ S = F32.nan then [F32.fin 0]
       else if sub32 now s.cf1_store.last_rise > (c.update_interval * 1000) % 2 ^ 32 ∧
           sub32 now s.cf1_store.last_rise > s.cf1_store.last_period ∧ S ≠ F32.fin 0 then
         [period_to_active s (F32.ofNat (sub32 now s.cf1_store.last_rise))]
       else []) ∧
    (update c s now).dont_change_mode =
      (if s.cf1_store.valid = true then false
       else if sub32 now s.cf1_store.last_rise > 10000000 ∨ S = F32.nan then false
       else true) ∧
    (update c s now).forced_change = false := by
  obtain ⟨h1, h2, h3, -⟩ := update_fields c s now hwarm
  have hpo := power_block_other c s now
  cases hm : s.current_mode
  · have hs2 : s.voltage_sensor = some S := by simpa [active_sensor, hm] using hs
    have hid : active_id s = SensorId.voltage := by simp [active_id, hm]
    have hpa : ∀ p, period_to_active s p = period_to_voltage s p := by
      intro p; simp [period_to_active, hm]
    have hb := cf1_block_voltage c s now S hm hs2
    obtain ⟨o1, o2⟩ := voltage_block_out c s now S
    rw [h1, h2, h3, hid, on_sensor_append, hpo.2, hb]
    simp only [hpa, List.nil_append]
    exact ⟨o1, o2, trivial⟩
  · have hs2 : s.current_sensor = some S := by simpa [active_sensor, hm] using hs
    have hid : active_id s = SensorId.current := by simp [active_id, hm]
    have hpa : ∀ p, period_to_active s p = period_to_current s p := by
      intro p; simp [period_to_active, hm]
    have hb := cf1_block_current c s now S hm hs2
    obtain ⟨o1, o2⟩ := current_block_out c s now S
    rw [h1, h2, h3, hid, on_sensor_append, hpo.1, hb]
    simp only [hpa, List.nil_append]
    exact ⟨o1, o2, trivial⟩

/-- Witness of `update_cf1_decision`: the sample state, current mode with a
valid CF1 capture. -/
theorem update_cf1_decision_witness :
    on_sensor (active_id demo_state) (update demo_config demo_state 3000000).published =
      (if demo_state.cf1_store.valid = true then
        [period_to_active demo_state (F32.ofNat demo_state.cf1_store.last_period)]
       else if sub32 3000000 demo_state.cf1_store.last_rise > 10000000 ∨
           F32.fin 3 = F32.nan then [F32.fin 0]
       else if sub32 3000000 demo_state.cf1_store.last_rise
             > (demo_config.update_interval * 1000) % 2 ^ 32 ∧
           sub32 3000000 demo_state.cf1_store.last_rise > demo_state.cf1_store.last_period ∧
           F32.fin 3 ≠ F32.fin 0 then
         [period_to_active demo_state (F32.ofNat (sub32 3000000 demo_state.cf1_store.last_rise))]
       else []) ∧
    (update demo_config demo_state 3000000).dont_change_mode =
      (if demo_state.cf1_store.valid = true then false
       else if sub32 3000000 demo_state.cf1_store.last_rise > 10000000 ∨
           F32.fin 3 = F32.nan then false
       else true) ∧
    (update demo_config demo_state 3000000).forced_change = false :=
  update_cf1_decision demo_config demo_state 3000000 (F32.fin 3) (by decide) rfl

/-- C17, as stated, fails when `update_interval*1000` does not fit in 32
bits: with `update_interval = 4 294 968` the code's `U` is 704; in current mode
with the CF1 capture reset and the last current value 3, two seconds after the
last CF1 edge, the code fades down, publishing the conversion of `t`, 1/2,
where the decision tree with `U = update_interval*1000` publishes nothing. -/
theorem cf1_decision_counterexample :
    2 ≤ stale_state.nth_value ∧ active_sensor stale_state = some (F32.fin 3) ∧
      active_id stale_state = SensorId.current ∧
      stale_state.cf1_store.valid = false ∧
      sub32 3000000 stale_state.cf1_store.last_rise = 2000000 ∧
      long_interval_config.update_interval * 1000 = 4294968000 ∧
      interval_us long_interval_config = 704 ∧
      (if stale_state.cf1_store.valid = true then
        [period_to_active stale_state (F32.ofNat stale_state.cf1_store.last_period)]
       else if sub32 3000000 stale_state.cf1_store.last_rise > 10000000 ∨
           F32.fin 3 = F32.nan then [F32.fin 0]
       else if sub32 3000000 stale_state.cf1_store.last_rise
             > long_interval_config.update_interval * 1000 ∧
           sub32 3000000 stale_state.cf1_store.last_rise > stale_state.cf1_store.last_period ∧
           F32.fin 3 ≠ F32.fin 0 then
         [period_to_active stale_state (F32.ofNat (sub32 3000000 stale_state.cf1_store.last_rise))]
       else []) = [] ∧
      on_sensor SensorId.current
          (update long_interval_config stale_state 3000000).published = [F32.fin (1 / 2)] ∧
      (update long_interval_config stale_state 3000000).dont_change_mode = true := by
  refine ⟨by decide, rfl, rfl, rfl, by decide, by decide, by decide, ?_, ?_, by decide⟩
  · simp [stale_state, demo_state, Store.reset, long_interval_config, demo_config, sub32]
  · simp [stale_state, demo_state, Store.reset, update, long_interval_config, demo_config,
      power_block, cf1_block, current_block, sub32, interval_us, F32.isnan, F32.ne0, F32.eq0,
      period_to_power, period_to_current, period_to_hz, F32.mul, F32.div, F32.ofNat, on_sensor]
    norm_num

/-! ## Fade-down -/

theorem period_to_power_pos (s : State) (m : ℚ) (a : Nat)
    (hm : s.power_multiplier = F32.fin m) (ha : 0 < a) :
    period_to_power s (F32.ofNat a) = F32.fin (1000000 / (a : ℚ) * m) := by
  rw [period_to_power, period_to_hz_pos a ha, hm, F32.mul_fin]

/-- The single-precision rounding on the constants of the scenario: 0.001f is
`0x3A83126F`, 2.43f is `0x401B851F`, and the integers below 2^24 are exact. -/
theorem single_constants :
    Single.lit 1 1000 = some ⟨8589935, -33⟩ ∧ Single.lit 243 100 = some ⟨10192159, -22⟩ ∧
    Single.ofNat 3579000 = some ⟨14316000, -2⟩ ∧ Single.ofNat 8005697 = some ⟨16011394, -1⟩ ∧
    Single.ofNat 1 = some ⟨8388608, -23⟩ := by
  decide

/-- C19 fails on the code: after setup, two CF edges 500 ms apart and three
ticks, power has been published as 0; at the fourth tick the edge is overdue
(`t = 3.4 s`, above `U = 1 s` and `T = 0.5 s`, below ten seconds) and the tick
publishes the conversion of the stale period, which is not 0. -/
theorem zero_reading_replaced :
    2 ≤ first_zero_state.nth_value ∧
    first_zero_state.power_sensor = some (F32.fin 0) ∧
    sub32 4000000 first_zero_state.cf_store.last_rise = 3400000 ∧
    sub32 4000000 first_zero_state.cf_store.last_rise > interval_us demo_config ∧
    sub32 4000000 first_zero_state.cf_store.last_rise > first_zero_state.cf_store.last_period ∧
    on_sensor SensorId.power (update demo_config first_zero_state 4000000).published =
      [period_to_power first_zero_state (F32.ofNat 500000)] ∧
    period_to_power first_zero_state (F32.ofNat 500000) =
      F32.fin (2 * ((243 / 100) ^ 2 * 2351 / (1 / 1000) * (64 / 24) / 3579000)) ∧
    on_sensor SensorId.power (update demo_config first_zero_state 4000000).published
      ≠ [F32.fin 0] := by
  have hw : 2 ≤ first_zero_state.nth_value := by decide
  have hp : first_zero_state.power_sensor = some (F32.fin 0) := by decide
  have ht : sub32 4000000 first_zero_state.cf_store.last_rise = 3400000 := by decide
  have hT : first_zero_state.cf_store.last_period = 500000 := by decide
  have hpub := power_published demo_config first_zero_state 4000000 (F32.fin 0) hw hp
  rw [ht, hT] at hpub
  have hz : ¬ ((3400000 : Nat) > 10000000 ∨ F32.fin 0 = F32.nan) := by
    rintro (h | h)
    · omega
    · exact F32.noConfusion h
  have hf : ¬ ((3400000 : Nat) > interval_us demo_config ∧ (3400000 : Nat) > 500000 ∧
      F32.fin 0 ≠ F32.fin 0) := fun h => h.2.2 rfl
  rw [if_neg hz, if_neg hf] at hpub
  have hmul : first_zero_state.power_multiplier =
      F32.fin ((243 / 100) ^ 2 * 2351 / (1 / 1000) * (64 / 24) / 3579000) := by
    have hb : first_zero_state.power_multiplier = (boot demo_config).power_multiplier := rfl
    rw [hb]
    simp only [boot, setup, initial_state, demo_config, F32.mul_fin, F32.ofNat,
      HLW8012_CLOCK_FREQUENCY, reduceCtorEq, if_false]
    rw [F32.div_fin _ _ (by norm_num), F32.mul_fin, F32.div_fin _ _ (by norm_num),
      F32.div_fin _ _ (by norm_num)]
    congr 1
    norm_num
  have hval : period_to_power first_zero_state (F32.ofNat 500000) =
      F32.fin (2 * ((243 / 100) ^ 2 * 2351 / (1 / 1000) * (64 / 24) / 3579000)) := by
    rw [period_to_power_pos _ _ 500000 hmul (by norm_num)]
    congr 1
    norm_num
  refine ⟨hw, hp, ht, by decide, by decide, hpub, hval, ?_⟩
  rw [hpub, hval]
  intro h
  injection h with h
  injection h with h
  norm_num at h

/-! ## Guards on publication -/

theorem power_block_mem (c : Config) (s : State) (now : Nat) (id : SensorId) (v : F32)
    (h : (id, v) ∈ (power_block c s now).2) :
    id = SensorId.power ∧ s.power_sensor ≠ none := by
  cases hp : s.power_sensor with
  | none => rw [power_block_none c s now hp] at h; simp at h
  | some S =>
    rw [power_block_some c s now S hp] at h
    simp only [List.mem_singleton, Prod.mk.injEq] at h
    exact ⟨h.1, by simp⟩

theorem cf1_block_mem (c : Config) (s : State) (now : Nat) (id : SensorId) (v : F32)
    (h : (id, v) ∈ (cf1_block c s now).2.1) :
    (id = SensorId.current ∧ s.current_sensor ≠ none ∧ s.current_mode = true) ∨
    (id = SensorId.voltage ∧ s.voltage_sensor ≠ none ∧ s.current_mode = false) := by
  rcases s with ⟨nv, cm, cma, sp, cf, cf1, pm, cum, vm, psn, cs, vs⟩
  cases cs <;> cases cm <;> cases vs <;>
    simp only [cf1_block, current_block, voltage_block] at h <;>
    (try split_ifs at h) <;>
    simp_all

theorem cf1_block_sensors (c : Config) (s : State) (now : Nat) :
    (s.current_sensor = none → (cf1_block c s now).1.current_sensor = none) ∧
    (s.voltage_sensor = none → (cf1_block c s now).1.voltage_sensor = none) := by
  rcases s with ⟨nv, cm, cma, sp, cf, cf1, pm, cum, vm, psn, cs, vs⟩
  cases cs <;> cases cm <;> cases vs <;>
    simp only [cf1_block, current_block, voltage_block, change_mode] <;>
    (try split_ifs) <;> simp

theorem update_state_sensors (c : Config) (s : State) (now : Nat) (hwarm : 2 ≤ s.nth_value) :
    (update c s now).state.power_sensor = (power_block c s now).1.power_sensor ∧
    (update c s now).state.current_sensor = (cf1_block c s now).1.current_sensor ∧
    (update c s now).state.voltage_sensor = (cf1_block c s now).1.voltage_sensor := by
  rw [update_past_warmup c s now hwarm, power_block_frame c s now, cf1_block_frame]
  simp only [change_mode]
  split_ifs <;> exact ⟨rfl, rfl, rfl⟩

theorem update_sensors_kept (c : Config) (s : State) (now : Nat) (id : SensorId)
    (h : sensor_of s id = none) : sensor_of (update c s now).state id = none := by
  by_cases hw : s.nth_value < 2
  · rw [(update_warmup c s now hw).1]
    cases id <;> exact h
  · obtain ⟨h1, h2, h3⟩ := update_state_sensors c s now (by omega)
    obtain ⟨k1, k2⟩ := cf1_block_sensors c s now
    cases id
    · show (update c s now).state.power_sensor = none
      have hp : s.power_sensor = none := h
      rw [h1, power_block_none c s now hp]
      exact hp
    · show (update c s now).state.current_sensor = none
      rw [h2]; exact k1 h
    · show (update c s now).state.voltage_sensor = none
      rw [h3]; exact k2 h

theorem on_sensor_eq_nil (id : SensorId) (l : List (SensorId × F32))
    (h : ∀ v, (id, v) ∉ l) : on_sensor id l = [] := by
  simp only [on_sensor, List.map_eq_nil_iff, List.filter_eq_nil_iff, decide_eq_true_eq]
  intro p hp hid
  exact h p.2 (by rw [← hid]; exact hp)

theorem update_published_mem (c : Config) (s : State) (now : Nat) (id : SensorId) (v : F32)
    (h : (id, v) ∈ (update c s now).published) :
    sensor_of s id ≠ none ∧ (id = SensorId.current → s.current_mode = true) ∧
    (id = SensorId.voltage → s.current_mode = false) := by
  by_cases hw : s.nth_value < 2
  · rw [(update_warmup c s now hw).2.1] at h
    simp at h
  · rw [(update_fields c s now (by omega)).1, List.mem_append] at h
    rcases h with h | h
    · obtain ⟨h1, h2⟩ := power_block_mem c s now id v h
      subst h1
      exact ⟨h2, fun e => (by cases e), fun e => (by cases e)⟩
    · rcases cf1_block_mem c s now id v h with ⟨h1, h2, h3⟩ | ⟨h1, h2, h3⟩
      · subst h1
        exact ⟨h2, fun _ => h3, fun e => (by cases e)⟩
      · subst h1
        exact ⟨h2, fun e => (by cases e), fun _ => h3⟩

/-- C20: every publication of a tick goes to a configured sensor, to the
current sensor only if `current_mode` was true at the start of the tick and to
the voltage sensor only if it was false, so a tick publishes on at most one of
the two; nothing is published on a sensor that is not configured, and such a
sensor is still not configured after the tick. -/
theorem publications_guarded (c : Config) (s : State) (now : Nat) :
    (∀ id v, (id, v) ∈ (update c s now).published →
      sensor_of s id ≠ none ∧ (id = SensorId.current → s.current_mode = true) ∧
      (id = SensorId.voltage → s.current_mode = false)) ∧
    (on_sensor SensorId.current (update c s now).published = [] ∨
      on_sensor SensorId.voltage (update c s now).published = []) ∧
    (∀ id, sensor_of s id = none →
      on_sensor id (update c s now).published = [] ∧
      sensor_of (update c s now).state id = none) := by
  refine ⟨update_published_mem c s now, ?_, ?_⟩
  · cases hm : s.current_mode
    · left
      apply on_sensor_eq_nil
      intro v hv
      have := (update_published_mem c s now _ v hv).2.1 rfl
      rw [hm] at this
      cases this
    · right
      apply on_sensor_eq_nil
      intro v hv
      have := (update_published_mem c s now _ v hv).2.2 rfl
      rw [hm] at this
      cases this
  · intro id hid
    refine ⟨?_, update_sensors_kept c s now id hid⟩
    apply on_sensor_eq_nil
    intro v hv
    exact (update_published_mem c s now id v hv).1 hid

end HLW8012
